import Mathlib

/-!
Verification of the CryptoTracker data-acquisition engine.

This development embeds the engine of the repository in Lean:

* an embedding of the JSON-like canonical payloads (`JVal`) together with the
  mock fallback generators of src/lib/api-utils.ts (`getMockCryptoList`,
  `getMockCryptoDetail`);
* the "primary/secondary/tertiary/quaternary" fallback cascade of
  src/lib/api-utils.ts (`apiStatus`, `getCryptoList`, `getCryptoDetail`) together
  with the session cache helpers of src/lib/api.ts (`cacheUtils`);
* the priority-keyed dispatcher of src/lib/api-client.ts
  (`apiStatusTracker`, `requestTracker`, `fetchCryptoData` with its two nested
  retry loops), with the network abstracted as an oracle giving the outcome of
  each per-provider attempt.

Real time (setTimeout delays, interval timers) is not executed; scheduling
constants are embedded as data, and Date.now() is threaded as an explicit
`now : Nat` (epoch milliseconds).  Numeric payload values are embedded as
rationals.
-/

namespace CryptoTracker

/-- JSON-like values: the canonical payload shape produced by the engine.
ISO date strings produced by the mock generators are embedded as their
underlying epoch-millisecond numbers. -/
inductive JVal where
  | num (q : ℚ)
  | str (s : String)
  | boolean (b : Bool)
  | null
  | arr (xs : List JVal)
  | obj (fields : List (String × JVal))

/-- Field lookup on a JSON object, none on non-objects. -/
def JVal.getField : JVal → String → Option JVal
  | JVal.obj fs, k => (fs.find? (fun f => f.1 == k)).map (fun f => f.2)
  | _, _ => none

/-- Presence of a nested field path in a JSON value. -/
def JVal.hasPath : JVal → List String → Bool
  | _, [] => true
  | v, k :: ks =>
    match JVal.getField v k with
    | some w => JVal.hasPath w ks
    | none => false

/-- Number.MAX_SAFE_INTEGER, used by the mock generators to clamp values. -/
def maxSafeInteger : ℚ := 9007199254740991

/-- Helper of the mock generators in src/lib/api-utils.ts: clamp a value to
the range [-MAX_SAFE_INTEGER/2, MAX_SAFE_INTEGER/2]. -/
def safeNumber (value : ℚ) : ℚ :=
  min (max value (-(maxSafeInteger / 2))) (maxSafeInteger / 2)

/-- JavaScript string capitalisation: charAt(0).toUpperCase() + slice(1). -/
def jsCapitalize (s : String) : String :=
  match s.data with
  | [] => ""
  | c :: cs => String.mk (Char.toUpper c :: cs)

/-- One entry of the fixed mock market list (src/lib/api-utils.ts,
getMockCryptoList). -/
def mockListEntry (id symbol name image : String) (price cap vol change rank : ℚ) : JVal :=
  JVal.obj
    [ ("id", JVal.str id)
    , ("symbol", JVal.str symbol)
    , ("name", JVal.str name)
    , ("image", JVal.str image)
    , ("current_price", JVal.num price)
    , ("market_cap", JVal.num (safeNumber cap))
    , ("total_volume", JVal.num (safeNumber vol))
    , ("price_change_percentage_24h", JVal.num change)
    , ("market_cap_rank", JVal.num rank) ]

/-- Mock market list generator of src/lib/api-utils.ts.  The body is a fixed
array literal; the currency argument is never read. -/
def getMockCryptoList (_currency : String) : JVal :=
  JVal.arr
    [ mockListEntry "bitcoin" "btc" "Bitcoin"
        "https://assets.coingecko.com/coins/images/1/large/bitcoin.png"
        50000 950000000000 30000000000 2.5 1
    , mockListEntry "ethereum" "eth" "Ethereum"
        "https://assets.coingecko.com/coins/images/279/large/ethereum.png"
        3000 350000000000 15000000000 1.8 2
    , mockListEntry "cardano" "ada" "Cardano"
        "https://assets.coingecko.com/coins/images/975/large/cardano.png"
        0.45 15000000000 500000000 (-1.2) 8
    , mockListEntry "solana" "sol" "Solana"
        "https://assets.coingecko.com/coins/images/4128/large/solana.png"
        120 50000000000 2000000000 3.7 5
    , mockListEntry "ripple" "xrp" "XRP"
        "https://assets.coingecko.com/coins/images/44/large/xrp-symbol-white-128.png"
        0.55 28000000000 1200000000 (-0.8) 6
    , mockListEntry "binancecoin" "bnb" "Binance Coin"
        "https://assets.coingecko.com/coins/images/825/large/bnb-icon2_2x.png"
        380 58000000000 1800000000 1.2 4
    , mockListEntry "dogecoin" "doge" "Dogecoin"
        "https://assets.coingecko.com/coins/images/5/large/dogecoin.png"
        0.08 11000000000 500000000 (-2.1) 10
    , mockListEntry "polkadot" "dot" "Polkadot"
        "https://assets.coingecko.com/coins/images/12171/large/polkadot.png"
        6.2 7800000000 320000000 0.9 12
    , mockListEntry "chainlink" "link" "Chainlink"
        "https://assets.coingecko.com/coins/images/877/large/chainlink-new-logo.png"
        13.5 7500000000 410000000 2.3 13
    , mockListEntry "litecoin" "ltc" "Litecoin"
        "https://assets.coingecko.com/coins/images/2/large/litecoin.png"
        68 5000000000 350000000 0.5 15 ]

/-- Per-coin data of the mockCoins table in getMockCryptoDetail. -/
structure MockCoin where
  price : ℚ
  marketCap : ℚ
  volume : ℚ
  change24h : ℚ
  supply : ℚ
  maxSupply : Option ℚ
  description : String
  rank : ℚ

/-- The mockCoins lookup table of getMockCryptoDetail (src/lib/api-utils.ts). -/
def mockCoins (id : String) : Option MockCoin :=
  if id == "bitcoin" then
    some ⟨50000, 950000000000, 30000000000, 2.5, 19000000, some 21000000,
      "Bitcoin is the first decentralized cryptocurrency, released as open-source software in 2009.", 1⟩
  else if id == "ethereum" then
    some ⟨3000, 350000000000, 15000000000, 1.8, 120000000, none,
      "Ethereum is a decentralized, open-source blockchain with smart contract functionality.", 2⟩
  else if id == "cardano" then
    some ⟨0.45, 15000000000, 500000000, -1.2, 35000000000, some 45000000000,
      "Cardano is a proof-of-stake blockchain platform with a focus on sustainability and scalability.", 8⟩
  else if id == "solana" then
    some ⟨120, 50000000000, 2000000000, 3.7, 400000000, none,
      "Solana is a high-performance blockchain supporting builders around the world creating crypto apps.", 5⟩
  else none

/-- Default coin data used by getMockCryptoDetail when the id is unknown. -/
def defaultMockCoin (id : String) : MockCoin :=
  ⟨10, 1000000000, 100000000, 0.5, 1000000, some 2000000,
    jsCapitalize id ++ " is a cryptocurrency.", 50⟩

/-- Per-currency map built by getMockCryptoDetail: usd value with fixed
approximate conversions for eur, gbp and jpy. -/
def currencyMap (v : ℚ) : JVal :=
  JVal.obj
    [ ("usd", JVal.num v)
    , ("eur", JVal.num (v * 0.93))
    , ("gbp", JVal.num (v * 0.79))
    , ("jpy", JVal.num (v * 150)) ]

/-- Per-currency map holding the same value for every currency. -/
def constCurrencyMap (v : ℚ) : JVal :=
  JVal.obj
    [ ("usd", JVal.num v)
    , ("eur", JVal.num v)
    , ("gbp", JVal.num v)
    , ("jpy", JVal.num v) ]

/-- Mock detail generator of src/lib/api-utils.ts (getMockCryptoDetail).
The two date fields are ISO strings of now minus 90 and 365 days; they are
embedded as the underlying epoch milliseconds. -/
def getMockCryptoDetail (id _currency : String) (now : Nat) : JVal :=
  let coinData := (mockCoins id).getD (defaultMockCoin id)
  JVal.obj
    [ ("id", JVal.str id)
    , ("symbol", JVal.str (String.toLower (String.take id 4)))
    , ("name", JVal.str (jsCapitalize id))
    , ("image", JVal.obj
        [ ("large", JVal.str ("https://assets.coingecko.com/coins/images/1/large/" ++ id ++ ".png")) ])
    , ("market_data", JVal.obj
        [ ("current_price", currencyMap coinData.price)
        , ("market_cap", currencyMap coinData.marketCap)
        , ("total_volume", currencyMap coinData.volume)
        , ("price_change_percentage_24h", JVal.num coinData.change24h)
        , ("price_change_percentage_7d", JVal.num (coinData.change24h * 1.5))
        , ("price_change_percentage_30d", JVal.num (coinData.change24h * 2))
        , ("circulating_supply", JVal.num coinData.supply)
        , ("total_supply", JVal.num coinData.supply)
        , ("max_supply", match coinData.maxSupply with
            | some m => JVal.num m
            | none => JVal.null)
        , ("ath", currencyMap (coinData.price * 1.5))
        , ("atl", currencyMap (coinData.price * 0.5))
        , ("ath_change_percentage", constCurrencyMap (-30))
        , ("atl_change_percentage", constCurrencyMap 100)
        , ("ath_date", constCurrencyMap ((now : ℚ) - 90 * 24 * 60 * 60 * 1000))
        , ("atl_date", constCurrencyMap ((now : ℚ) - 365 * 24 * 60 * 60 * 1000)) ])
    , ("market_cap_rank", JVal.num coinData.rank)
    , ("description", JVal.obj [ ("en", JVal.str coinData.description) ])
    , ("links", JVal.obj
        [ ("homepage", JVal.arr [JVal.str ("https://" ++ id ++ ".org")])
        , ("blockchain_site", JVal.arr [JVal.str "https://blockchain.com", JVal.str "https://blockchair.com"])
        , ("official_forum_url", JVal.arr [JVal.str ("https://" ++ id ++ ".org/forum")])
        , ("twitter_screen_name", JVal.str id)
        , ("telegram_channel_identifier", JVal.str "")
        , ("subreddit_url", JVal.str ("https://reddit.com/r/" ++ id)) ])
    , ("categories", JVal.arr [JVal.str "Cryptocurrency"]) ]

/-- Identifiers of the four real providers in src/lib/api-utils.ts. -/
inductive UtilApi where
  | primary
  | secondary
  | tertiary
  | quaternary
deriving DecidableEq

/-- Values of apiStatus.currentSource in src/lib/api-utils.ts. -/
inductive UtilSource where
  | primary
  | secondary
  | tertiary
  | quaternary
  | mock
deriving DecidableEq

/-- Coercion of a provider identifier into a source label. -/
def UtilApi.toSource : UtilApi → UtilSource
  | UtilApi.primary => UtilSource.primary
  | UtilApi.secondary => UtilSource.secondary
  | UtilApi.tertiary => UtilSource.tertiary
  | UtilApi.quaternary => UtilSource.quaternary

/-- The apiStatus object of src/lib/api-utils.ts: one operational flag and
lastChecked timestamp per provider, plus the currentSource label. -/
structure UtilStatus where
  primaryOperational : Bool
  secondaryOperational : Bool
  tertiaryOperational : Bool
  quaternaryOperational : Bool
  primaryLastChecked : Nat
  secondaryLastChecked : Nat
  tertiaryLastChecked : Nat
  quaternaryLastChecked : Nat
  currentSource : UtilSource
deriving DecidableEq

/-- Read the operational flag of one provider. -/
def UtilStatus.operationalOf (s : UtilStatus) : UtilApi → Bool
  | UtilApi.primary => s.primaryOperational
  | UtilApi.secondary => s.secondaryOperational
  | UtilApi.tertiary => s.tertiaryOperational
  | UtilApi.quaternary => s.quaternaryOperational

/-- Read the lastChecked timestamp of one provider. -/
def UtilStatus.lastCheckedOf (s : UtilStatus) : UtilApi → Nat
  | UtilApi.primary => s.primaryLastChecked
  | UtilApi.secondary => s.secondaryLastChecked
  | UtilApi.tertiary => s.tertiaryLastChecked
  | UtilApi.quaternary => s.quaternaryLastChecked

/-- Write the operational flag of one provider. -/
def UtilStatus.setOperational (s : UtilStatus) (api : UtilApi) (b : Bool) : UtilStatus :=
  match api with
  | UtilApi.primary => { s with primaryOperational := b }
  | UtilApi.secondary => { s with secondaryOperational := b }
  | UtilApi.tertiary => { s with tertiaryOperational := b }
  | UtilApi.quaternary => { s with quaternaryOperational := b }

/-- Write the lastChecked timestamp of one provider. -/
def UtilStatus.setLastChecked (s : UtilStatus) (api : UtilApi) (t : Nat) : UtilStatus :=
  match api with
  | UtilApi.primary => { s with primaryLastChecked := t }
  | UtilApi.secondary => { s with secondaryLastChecked := t }
  | UtilApi.tertiary => { s with tertiaryLastChecked := t }
  | UtilApi.quaternary => { s with quaternaryLastChecked := t }

/-- The apiStatus.updateStatus method of src/lib/api-utils.ts: record the
result for one provider and, when the current source just failed, fall back
along the primary-to-quaternary chain (to mock when the chain is empty); a
success while the current source is mock promotes the provider. -/
def UtilStatus.updateStatus (s : UtilStatus) (api : UtilApi) (available : Bool) (now : Nat) : UtilStatus :=
  let s := (s.setOperational api available).setLastChecked api now
  if api.toSource = s.currentSource ∧ available = false then
    { s with currentSource :=
        if s.primaryOperational then UtilSource.primary
        else if s.secondaryOperational then UtilSource.secondary
        else if s.tertiaryOperational then UtilSource.tertiary
        else if s.quaternaryOperational then UtilSource.quaternary
        else UtilSource.mock }
  else if available = true ∧ s.currentSource = UtilSource.mock then
    { s with currentSource := api.toSource }
  else s

/-- The apiStatus.resetStatuses method of src/lib/api-utils.ts: every
provider becomes operational, every lastChecked is zeroed, and the current
source is reset to primary. -/
def UtilStatus.resetStatuses (_s : UtilStatus) : UtilStatus :=
  { primaryOperational := true
  , secondaryOperational := true
  , tertiaryOperational := true
  , quaternaryOperational := true
  , primaryLastChecked := 0
  , secondaryLastChecked := 0
  , tertiaryLastChecked := 0
  , quaternaryLastChecked := 0
  , currentSource := UtilSource.primary }

/-- A sessionStorage cache record as written by cacheUtils.set in
src/lib/api.ts: a payload and the single number stored beside it (the field
named timestamp). -/
structure UtilCacheEntry where
  data : JVal
  timestamp : Nat

/-- The sessionStorage key space used through cacheUtils. -/
def UtilCache : Type := List (String × UtilCacheEntry)

/-- The cacheUtils.get function of src/lib/api.ts.  It parses and returns
whatever is stored under the key; it performs no expiry check of any kind. -/
def cacheUtilsGet (cache : UtilCache) (key : String) : Option UtilCacheEntry :=
  (cache.find? (fun e => e.1 == key)).map (fun e => e.2)

/-- The cacheUtils.set function of src/lib/api.ts: overwrite the record
stored under the key. -/
def cacheUtilsSet (cache : UtilCache) (key : String) (data : JVal) (timestamp : Nat) : UtilCache :=
  (key, ⟨data, timestamp⟩) :: cache.filter (fun e => e.1 != key)

/-- The cacheUtils.isValid helper of src/lib/api.ts (defined there but never
called by the fetch paths): age check against a supplied maxAge. -/
def cacheUtilsIsValid (cache : UtilCache) (key : String) (maxAge now : Nat) : Bool :=
  match cacheUtilsGet cache key with
  | none => false
  | some e => now - e.timestamp < maxAge

/-- Modelled from the spec: src/lib/api-config.ts is not among the source
files; spec section 4.5 gives the market-list TTL as about 10 minutes, in
agreement with CACHE_CONFIG.marketsList of src/lib/api-client.ts. -/
def cacheConfigMarketsList : Nat := 10 * 60 * 1000

/-- Modelled from the spec: src/lib/api-config.ts is not among the source
files; spec section 4.5 gives the detail TTL as about 15 minutes, in
agreement with CACHE_CONFIG.coinDetail of src/lib/api-client.ts. -/
def cacheConfigCoinDetail : Nat := 15 * 60 * 1000

/-- Mutable state touched by the api-utils fetch paths: the apiStatus
object, the sessionStorage cache and the current clock value. -/
structure UtilState where
  status : UtilStatus
  cache : UtilCache
  now : Nat

/-- One network-and-transform stage of the api-utils cascade, abstracted:
for an operational provider the oracle yields either the transformed
payload of that branch or a thrown error. -/
def UtilEnv : Type := UtilApi → Except Unit JVal

/-- The shared shape of the provider cascades in src/lib/api-utils.ts
(getCryptoList, getCryptoDetail, getCryptoChartData): walk the listed
providers in order, skipping non-operational ones; a successful branch
caches its payload with the query TTL and records the success; a failing
branch records the failure and falls through; when every branch has been
passed over, currentSource is assigned mock and the mock payload is
returned without any cache write. -/
def utilCascade (env : UtilEnv) (apis : List UtilApi) (cacheKey : String) (ttl : Nat)
    (mockData : JVal) (s : UtilState) : JVal × UtilState :=
  match apis with
  | [] =>
    (mockData, { s with status := { s.status with currentSource := UtilSource.mock } })
  | api :: rest =>
    if s.status.operationalOf api then
      match env api with
      | Except.ok data =>
        (data,
          { s with
            cache := cacheUtilsSet s.cache cacheKey data (s.now + ttl)
            status := s.status.updateStatus api true s.now })
      | Except.error _ =>
        utilCascade env rest cacheKey ttl mockData
          { s with status := s.status.updateStatus api false s.now }
    else
      utilCascade env rest cacheKey ttl mockData s

/-- The getCryptoList function of src/lib/api-utils.ts.  Unless a refresh is
forced it first consults cacheUtils.get, returning any stored record with no
expiry check; otherwise it runs the four-provider cascade and falls back to
the mock list. -/
def getCryptoList (env : UtilEnv) (currency : String) (forceRefresh : Bool)
    (s : UtilState) : JVal × UtilState :=
  let cacheKey := "crypto-list-" ++ currency
  let cached := if forceRefresh then none else cacheUtilsGet s.cache cacheKey
  match cached with
  | some e => (e.data, s)
  | none =>
    utilCascade env [UtilApi.primary, UtilApi.secondary, UtilApi.tertiary, UtilApi.quaternary]
      cacheKey cacheConfigMarketsList (getMockCryptoList currency) s

/-- The getCryptoDetail function of src/lib/api-utils.ts.  Same cache-first
shape as getCryptoList, with a three-provider cascade (primary, secondary,
tertiary) and the mock detail payload as last resort.  All internal fetch
errors are caught, so no branch can raise to the caller. -/
def getCryptoDetail (env : UtilEnv) (id currency : String) (forceRefresh : Bool)
    (s : UtilState) : JVal × UtilState :=
  let cacheKey := "crypto-detail-" ++ id ++ "-" ++ currency
  let cached := if forceRefresh then none else cacheUtilsGet s.cache cacheKey
  match cached with
  | some e => (e.data, s)
  | none =>
    utilCascade env [UtilApi.primary, UtilApi.secondary, UtilApi.tertiary]
      cacheKey cacheConfigCoinDetail (getMockCryptoDetail id currency s.now) s

/-- Modelled from the spec: src/lib/api-config.ts is not among the source
files; spec section 4.5 gives the chart TTL as about 20 minutes, in
agreement with CACHE_CONFIG.marketChart of src/lib/api-client.ts. -/
def cacheConfigMarketChart : Nat := 20 * 60 * 1000

/-- Random-walk price pairs of getMockChartData (src/lib/api-utils.ts): the
i-th point lies (dataPoints - i) intervals before now and multiplies the
running price by 1 + (draw - 0.5) * 2 * volatility + trend, with volatility
0.02 and trend 0.001.  Math.random() is abstracted as the oracle rand,
consumed at indices 0, 1, ...; the fuel argument counts the points still to
produce. -/
def mockChartPricesFrom (now : ℚ) (dataPoints interval : Nat) (rand : Nat → ℚ) :
    Nat → Nat → ℚ → List (ℚ × ℚ)
  | _, 0, _ => []
  | i, fuel + 1, lastPrice =>
    let time := now - (((dataPoints - i : Nat) : ℚ) * (interval : ℚ))
    let newPrice := lastPrice * (1 + (rand i - 0.5) * 2 * 0.02 + 0.001)
    (time, newPrice) :: mockChartPricesFrom now dataPoints interval rand (i + 1) fuel newPrice

/-- The getMockChartData generator of src/lib/api-utils.ts: interval and
point count derived from the day range, a random-walk price series starting
at 50000, market caps as price times 19000000, and volumes as 30000000000
plus a fresh draw times 5000000000.  The per-volume Math.random() calls
follow the price draws, so they are read at indices dataPoints, dataPoints
plus 1, and so on. -/
def getMockChartData (_id _currency : String) (days : Nat) (now : Nat) (rand : Nat → ℚ) : JVal :=
  let interval : Nat := if days ≤ 1 then 3600000 else if days ≤ 7 then 21600000 else 86400000
  let dataPoints : Nat := if days ≤ 1 then 24 else if days ≤ 7 then 28 else days
  let prices := mockChartPricesFrom (now : ℚ) dataPoints interval rand 0 dataPoints 50000
  JVal.obj
    [ ("prices", JVal.arr (prices.map (fun tp => JVal.arr [JVal.num tp.1, JVal.num tp.2])))
    , ("market_caps", JVal.arr (prices.map (fun tp =>
        JVal.arr [JVal.num tp.1, JVal.num (tp.2 * 19000000)])))
    , ("total_volumes", JVal.arr (prices.enum.map (fun itp =>
        JVal.arr [JVal.num itp.2.1,
          JVal.num (30000000000 + rand (dataPoints + itp.1) * 5000000000)]))) ]

/-- The getCryptoChartData function of src/lib/api-utils.ts.  Same
cache-first shape as getCryptoList, with the four-provider cascade and the
mock chart payload as last resort; the day range is carried as its parsed
numeric value, rendered back into the cache key. -/
def getCryptoChartData (env : UtilEnv) (rand : Nat → ℚ) (id currency : String) (days : Nat)
    (forceRefresh : Bool) (s : UtilState) : JVal × UtilState :=
  let cacheKey := "chart-" ++ id ++ "-" ++ currency ++ "-" ++ toString days
  let cached := if forceRefresh then none else cacheUtilsGet s.cache cacheKey
  match cached with
  | some e => (e.data, s)
  | none =>
    utilCascade env [UtilApi.primary, UtilApi.secondary, UtilApi.tertiary, UtilApi.quaternary]
      cacheKey cacheConfigMarketChart (getMockChartData id currency days s.now rand) s

/-- Timing data of one periodic reset registration. -/
structure ResetSchedule where
  initialDelayMs : Nat
  intervalMs : Nat
deriving DecidableEq

/-- The setupApiStatusReset function of src/lib/api-utils.ts: one reset 60
seconds after startup, then one every intervalMinutes minutes. -/
def setupApiStatusReset (intervalMinutes : Nat) : ResetSchedule :=
  ⟨60 * 1000, intervalMinutes * 60 * 1000⟩

/-- The setupApiStatusReset function of src/lib/api-client.ts (imported
under the name setupNewApiStatusReset): identical timing constants. -/
def setupNewApiStatusReset (intervalMinutes : Nat) : ResetSchedule :=
  ⟨60 * 1000, intervalMinutes * 60 * 1000⟩

/-- The initializeApiServices function of src/lib/api-init.ts, restricted to
its scheduling effect: both reset schedules are registered with a 15-minute
interval. -/
def initApiServices : ResetSchedule × ResetSchedule :=
  (setupApiStatusReset 15, setupNewApiStatusReset 15)

/-- The four real API sources of src/lib/api-client.ts. -/
inductive Provider where
  | coingecko
  | coincap
  | cryptocompare
  | binance
deriving DecidableEq

/-- An ApiSource value of src/lib/api-client.ts: a real provider or the mock
pseudo-source. -/
inductive ApiSource where
  | real (p : Provider)
  | mock
deriving DecidableEq

/-- One provider record of the apiStatusTracker object in
src/lib/api-client.ts. -/
structure ClientEntry where
  operational : Bool
  lastChecked : Nat
  priority : Nat
deriving DecidableEq

/-- The apiStatusTracker object of src/lib/api-client.ts: a record per
provider plus the currentSource pointer. -/
structure ClientTracker where
  coingecko : ClientEntry
  coincap : ClientEntry
  cryptocompare : ClientEntry
  binance : ClientEntry
  currentSource : ApiSource
deriving DecidableEq

/-- Read one provider record. -/
def ClientTracker.entry (t : ClientTracker) : Provider → ClientEntry
  | Provider.coingecko => t.coingecko
  | Provider.coincap => t.coincap
  | Provider.cryptocompare => t.cryptocompare
  | Provider.binance => t.binance

/-- Write one provider record. -/
def ClientTracker.setEntry (t : ClientTracker) (p : Provider) (e : ClientEntry) : ClientTracker :=
  match p with
  | Provider.coingecko => { t with coingecko := e }
  | Provider.coincap => { t with coincap := e }
  | Provider.cryptocompare => { t with cryptocompare := e }
  | Provider.binance => { t with binance := e }

/-- The initial apiStatusTracker literal: all operational, priorities 1 to 4
in registry order, currentSource coingecko. -/
def initialTracker : ClientTracker :=
  ⟨⟨true, 0, 1⟩, ⟨true, 0, 2⟩, ⟨true, 0, 3⟩, ⟨true, 0, 4⟩, ApiSource.real Provider.coingecko⟩

/-- Registry declaration order of the providers (Object.keys order of the
apiStatusTracker literal). -/
def allProviders : List Provider :=
  [Provider.coingecko, Provider.coincap, Provider.cryptocompare, Provider.binance]

/-- Stable insertion used to embed the priority sort of the candidate
lists. -/
def insertByPriority (t : ClientTracker) (p : Provider) : List Provider → List Provider
  | [] => [p]
  | q :: qs =>
    if (t.entry p).priority ≤ (t.entry q).priority then p :: q :: qs
    else q :: insertByPriority t p qs

/-- Ascending sort by the priority field of the tracker entries. -/
def sortByPriority (t : ClientTracker) : List Provider → List Provider
  | [] => []
  | p :: ps => insertByPriority t p (sortByPriority t ps)

/-- The apiStatusTracker.getNextAvailableApi method: the operational
provider of least priority, or mock when none is operational. -/
def ClientTracker.getNextAvailableApi (t : ClientTracker) : ApiSource :=
  match sortByPriority t (allProviders.filter (fun p => (t.entry p).operational)) with
  | [] => ApiSource.mock
  | p :: _ => ApiSource.real p

/-- The apiStatusTracker.updateStatus method: record the outcome and, when
the current source itself just became non-operational, repoint
currentSource at the next available API. -/
def ClientTracker.updateStatus (t : ClientTracker) (p : Provider) (isOperational : Bool)
    (now : Nat) : ClientTracker :=
  let e := t.entry p
  let t := t.setEntry p { e with operational := isOperational, lastChecked := now }
  if ApiSource.real p = t.currentSource ∧ isOperational = false then
    { t with currentSource := t.getNextAvailableApi }
  else t

/-- The apiStatusTracker.resetStatuses method: every provider becomes
operational and currentSource is recomputed. -/
def ClientTracker.resetStatuses (t : ClientTracker) : ClientTracker :=
  let t :=
    { t with
      coingecko := { t.coingecko with operational := true }
      coincap := { t.coincap with operational := true }
      cryptocompare := { t.cryptocompare with operational := true }
      binance := { t.binance with operational := true } }
  { t with currentSource := t.getNextAvailableApi }

/-- The requestTracker object of src/lib/api-client.ts.  Timestamp arrays
exist only for coingecko, cryptocompare and binance; the isRateLimited and
rateLimitResetTime maps acquire a key for any provider that returns a 429,
so they are carried for all four. -/
structure RequestTracker where
  coingeckoTimes : List Nat
  cryptocompareTimes : List Nat
  binanceTimes : List Nat
  rlCoingecko : Bool
  rlCoincap : Bool
  rlCryptocompare : Bool
  rlBinance : Bool
  rstCoingecko : Nat
  rstCoincap : Nat
  rstCryptocompare : Nat
  rstBinance : Nat
deriving DecidableEq

/-- The initial requestTracker literal: empty windows, nothing
rate-limited. -/
def initialRequestTracker : RequestTracker :=
  ⟨[], [], [], false, false, false, false, 0, 0, 0, 0⟩

/-- Timestamp array of one provider; none for coincap, which has no array
in the requestTracker literal. -/
def RequestTracker.times (rt : RequestTracker) : Provider → Option (List Nat)
  | Provider.coingecko => some rt.coingeckoTimes
  | Provider.coincap => none
  | Provider.cryptocompare => some rt.cryptocompareTimes
  | Provider.binance => some rt.binanceTimes

/-- Replace the timestamp array of one provider (no effect for coincap). -/
def RequestTracker.setTimes (rt : RequestTracker) (p : Provider) (ts : List Nat) : RequestTracker :=
  match p with
  | Provider.coingecko => { rt with coingeckoTimes := ts }
  | Provider.coincap => rt
  | Provider.cryptocompare => { rt with cryptocompareTimes := ts }
  | Provider.binance => { rt with binanceTimes := ts }

/-- Read the isRateLimited flag of one provider. -/
def RequestTracker.rlOf (rt : RequestTracker) : Provider → Bool
  | Provider.coingecko => rt.rlCoingecko
  | Provider.coincap => rt.rlCoincap
  | Provider.cryptocompare => rt.rlCryptocompare
  | Provider.binance => rt.rlBinance

/-- Write the isRateLimited flag of one provider. -/
def RequestTracker.setRl (rt : RequestTracker) (p : Provider) (b : Bool) : RequestTracker :=
  match p with
  | Provider.coingecko => { rt with rlCoingecko := b }
  | Provider.coincap => { rt with rlCoincap := b }
  | Provider.cryptocompare => { rt with rlCryptocompare := b }
  | Provider.binance => { rt with rlBinance := b }

/-- Read the rateLimitResetTime of one provider. -/
def RequestTracker.rstOf (rt : RequestTracker) : Provider → Nat
  | Provider.coingecko => rt.rstCoingecko
  | Provider.coincap => rt.rstCoincap
  | Provider.cryptocompare => rt.rstCryptocompare
  | Provider.binance => rt.rstBinance

/-- Write the rateLimitResetTime of one provider. -/
def RequestTracker.setRst (rt : RequestTracker) (p : Provider) (n : Nat) : RequestTracker :=
  match p with
  | Provider.coingecko => { rt with rstCoingecko := n }
  | Provider.coincap => { rt with rstCoincap := n }
  | Provider.cryptocompare => { rt with rstCryptocompare := n }
  | Provider.binance => { rt with rstBinance := n }

/-- Rate-limit policy of API_CONFIG in src/lib/api-client.ts: (maxRequests,
resetTime in ms); only coingecko and cryptocompare carry one. -/
def rateLimitConfig : Provider → Option (Nat × Nat)
  | Provider.coingecko => some (10, 60000)
  | Provider.cryptocompare => some (50, 60000)
  | Provider.coincap => none
  | Provider.binance => none

/-- Window-membership test of cleanOldRequests: a timestamp survives the
prune when it is strictly newer than now minus the window (computed over
the integers, as the cutoff now - resetTime can be negative). -/
def liveInWindow (now win time : Nat) : Bool :=
  (now : Int) - (win : Int) < (time : Int)

/-- The requestTracker.cleanOldRequests method: for a provider with both a
timestamp array and a policy, drop timestamps at or before now minus the
window. -/
def RequestTracker.cleanOldRequests (rt : RequestTracker) (p : Provider) (now : Nat) : RequestTracker :=
  match rt.times p with
  | none => rt
  | some ts =>
    match rateLimitConfig p with
    | none => rt
    | some (_, win) =>
      rt.setTimes p (ts.filter (liveInWindow now win))

/-- The requestTracker.addRequest method: push the new timestamp, prune,
then compare the window length against the policy maximum; on overflow the
provider is flagged rate-limited with a reset time one window ahead (the
pushed timestamp stays in the window).  Providers without a timestamp array
or without a policy always yield true. -/
def RequestTracker.addRequest (rt : RequestTracker) (p : Provider) (now : Nat) :
    RequestTracker × Bool :=
  match rt.times p with
  | none => (rt, true)
  | some ts =>
    let rt := rt.setTimes p (ts ++ [now])
    let rt := rt.cleanOldRequests p now
    match rateLimitConfig p with
    | none => (rt, true)
    | some (maxReq, win) =>
      if maxReq < ((rt.times p).getD []).length then
        ((rt.setRl p true).setRst p (now + win), false)
      else (rt, true)

/-- Outcome of one raw network attempt against a provider, after the
per-provider response transform: a transformed payload, a 429 with its
optional Retry-After hint in seconds, another non-2xx or parse failure, or
an aborted (timed-out) request. -/
inductive Outcome (α : Type) where
  | ok (a : α)
  | rateLimited (retryAfter : Option Nat)
  | httpError
  | timeout

/-- Error kinds thrown out of fetchFromApi, distinguished exactly as the
retry logic distinguishes them. -/
inductive ErrKind where
  | rateLimit
  | abort
  | generic
deriving DecidableEq

/-- Network oracle: the outcome of the k-th attempt of this fetch against a
given provider. -/
def NetEnv (α : Type) : Type := Provider → Nat → Outcome α

/-- Inner for-loop of fetchFromApi in src/lib/api-client.ts, with fuel equal
to the remaining iterations of the attempt counter.  A 429 records the
rate-limit flag and reset time (from the Retry-After hint in seconds, else
the configured window, else 60000 ms) and breaks; an abort breaks; any
other failure retries until the fuel runs out.  The result carries the
updated requestTracker and the number of network attempts consumed. -/
def fetchFromApiLoop (env : NetEnv α) (p : Provider) (now : Nat) :
    Nat → Nat → RequestTracker → ErrKind → (Except ErrKind α × RequestTracker × Nat)
  | _, 0, rt, last => (Except.error last, rt, 0)
  | idx, fuel + 1, rt, _ =>
    match env p idx with
    | Outcome.ok a => (Except.ok a, rt, 1)
    | Outcome.rateLimited hint =>
      let wait :=
        match hint with
        | some secs => secs * 1000
        | none =>
          match rateLimitConfig p with
          | some (_, win) => win
          | none => 60000
      (Except.error ErrKind.rateLimit, (rt.setRl p true).setRst p (now + wait), 1)
    | Outcome.timeout => (Except.error ErrKind.abort, rt, 1)
    | Outcome.httpError =>
      let r := fetchFromApiLoop env p now (idx + 1) fuel rt ErrKind.generic
      (r.1, r.2.1, r.2.2 + 1)

/-- The fetchFromApi function of src/lib/api-client.ts: retries + 1 loop
iterations starting at the given global attempt index. -/
def fetchFromApi (env : NetEnv α) (p : Provider) (now retries idx : Nat)
    (rt : RequestTracker) : Except ErrKind α × RequestTracker × Nat :=
  fetchFromApiLoop env p now idx (retries + 1) rt ErrKind.generic

/-- Outer retry loop of fetchCryptoData around fetchFromApi: up to retries
calls of fetchFromApi, rethrowing the last error when the budget is spent;
with a zero budget the loop body never runs and a generic failure is
thrown. -/
def outerRetryLoop (env : NetEnv α) (p : Provider) (now retries : Nat) :
    Nat → Nat → RequestTracker → (Except ErrKind α × RequestTracker × Nat)
  | 0, _, rt => (Except.error ErrKind.generic, rt, 0)
  | rem + 1, idx, rt =>
    match fetchFromApi env p now retries idx rt with
    | (Except.ok a, rt1, n) => (Except.ok a, rt1, n)
    | (Except.error e, rt1, n) =>
      if rem = 0 then (Except.error e, rt1, n)
      else
        let r := outerRetryLoop env p now retries rem (idx + n) rt1
        (r.1, r.2.1, r.2.2 + n)

/-- One cache record written by cacheData in src/lib/api-client.ts. -/
structure ClientCacheEntry (α : Type) where
  data : α
  source : ApiSource
  timestamp : Nat
  expiry : Nat

/-- SessionStorage as used by the api-client cache helpers. -/
def ClientCache (α : Type) : Type := List (String × ClientCacheEntry α)

/-- Key lookup in the client cache. -/
def clientCacheLookup (cache : ClientCache α) (key : String) : Option (ClientCacheEntry α) :=
  (cache.find? (fun e => e.1 == key)).map (fun e => e.2)

/-- The getCachedData function of src/lib/api-client.ts: a stored record
older than its expiry is removed and treated as a miss. -/
def getCachedData (cache : ClientCache α) (now : Nat) (key : String) :
    Option (ClientCacheEntry α) × ClientCache α :=
  match clientCacheLookup cache key with
  | none => (none, cache)
  | some e =>
    if e.expiry < now - e.timestamp then (none, cache.filter (fun x => x.1 != key))
    else (some e, cache)

/-- The cacheData function of src/lib/api-client.ts: store the payload with
its source, creation timestamp and expiry. -/
def cacheData (cache : ClientCache α) (key : String) (data : α) (source : ApiSource)
    (expiry now : Nat) : ClientCache α :=
  (key, ⟨data, source, now, expiry⟩) :: cache.filter (fun e => e.1 != key)

/-- Mutable state touched by fetchCryptoData: the status tracker, the
request tracker and the session cache, at one clock instant. -/
structure ClientState (α : Type) where
  tracker : ClientTracker
  rt : RequestTracker
  cache : ClientCache α
  now : Nat

/-- Candidate list built by fetchCryptoData: the preferred API first when it
is operational, then every other operational API in ascending priority
order. -/
def apisToTry (t : ClientTracker) (preferred : Option Provider) : List Provider :=
  let pref :=
    match preferred with
    | some p => if (t.entry p).operational then [p] else []
    | none => []
  let remaining :=
    sortByPriority t
      ((allProviders.filter (fun q => some q ≠ preferred)).filter
        (fun q => (t.entry q).operational))
  pref ++ remaining

/-- Per-candidate loop of fetchCryptoData: skip a provider whose
isRateLimited flag is set (with no status change); otherwise record the
request (the boolean result is discarded, as in the source), run the outer
retry loop, and either finish with a success (status marked operational,
currentSource repointed, result cached under any cache key) or mark the
provider non-operational and continue.  The returned list is the network
trace: one entry per attempt, in order. -/
def tryApis (env : NetEnv α) (cacheKey : Option String) (cacheTime retries : Nat) :
    List Provider → ClientState α → Option (α × Provider) × ClientState α × List Provider
  | [], s => (none, s, [])
  | p :: ps, s =>
    if s.rt.rlOf p then tryApis env cacheKey cacheTime retries ps s
    else
      let rt0 := (s.rt.addRequest p s.now).1
      match outerRetryLoop env p s.now retries retries 0 rt0 with
      | (Except.ok a, rt1, n) =>
        let tracker := s.tracker.updateStatus p true s.now
        let tracker := { tracker with currentSource := ApiSource.real p }
        let cache :=
          match cacheKey with
          | some k => cacheData s.cache k a (ApiSource.real p) cacheTime s.now
          | none => s.cache
        (some (a, p), ⟨tracker, rt1, cache, s.now⟩, List.replicate n p)
      | (Except.error _, rt1, n) =>
        let tracker := s.tracker.updateStatus p false s.now
        let r := tryApis env cacheKey cacheTime retries ps ⟨tracker, rt1, s.cache, s.now⟩
        (r.1, r.2.1, List.replicate n p ++ r.2.2)

/-- The fetchCryptoData function of src/lib/api-client.ts.  With a cache key
and no forced refresh a live cache hit is returned directly; otherwise the
candidate providers are tried in order, and when all fail the mock payload
is returned with source mock, cached (when a key is given) with expiry
min(cacheTime, five minutes); no currentSource assignment happens on that
path. -/
def fetchCryptoData (env : NetEnv α) (mockData : α) (preferred : Option Provider)
    (cacheKey : Option String) (cacheTime : Nat) (forceRefresh : Bool) (retries : Nat)
    (s : ClientState α) : (α × ApiSource) × ClientState α × List Provider :=
  let hit :=
    match cacheKey, forceRefresh with
    | some k, false =>
      let r := getCachedData s.cache s.now k
      (r.1, { s with cache := r.2 })
    | _, _ => (none, s)
  match hit with
  | (some e, s1) => ((e.data, e.source), s1, [])
  | (none, s1) =>
    match tryApis env cacheKey cacheTime retries (apisToTry s1.tracker preferred) s1 with
    | (some (a, p), s2, trace) => ((a, ApiSource.real p), s2, trace)
    | (none, s2, trace) =>
      let cache :=
        match cacheKey with
        | some k => cacheData s2.cache k mockData ApiSource.mock (min cacheTime 300000) s2.now
        | none => s2.cache
      ((mockData, ApiSource.mock), { s2 with cache := cache }, trace)

/-- Length of a JSON array, zero on other values. -/
def JVal.arrLength : JVal → Nat
  | JVal.arr xs => xs.length
  | _ => 0

/-- Specification-side definition, following the words of spec section 3:
the required fields of the canonical AssetDetail schema (MarketEntry
identity fields, per-currency price, market-cap and volume maps, the six
change-percentage horizons 24h, 7d, 30d, 60d, 200d and 1y, the supply
figures, all-time high and low with date and change percent, description
and links), written as paths in the canonical CoinGecko-shaped payload the
consuming pages read. -/
def specAssetDetailRequiredPaths : List (List String) :=
  [ ["id"], ["symbol"], ["name"], ["image"]
  , ["market_data", "current_price"]
  , ["market_data", "market_cap"]
  , ["market_data", "total_volume"]
  , ["market_data", "price_change_percentage_24h"]
  , ["market_data", "price_change_percentage_7d"]
  , ["market_data", "price_change_percentage_30d"]
  , ["market_data", "price_change_percentage_60d"]
  , ["market_data", "price_change_percentage_200d"]
  , ["market_data", "price_change_percentage_1y"]
  , ["market_data", "circulating_supply"]
  , ["market_data", "total_supply"]
  , ["market_data", "max_supply"]
  , ["market_data", "ath"]
  , ["market_data", "atl"]
  , ["market_data", "ath_date"]
  , ["market_data", "atl_date"]
  , ["market_data", "ath_change_percentage"]
  , ["market_data", "atl_change_percentage"]
  , ["market_cap_rank"], ["description"], ["links"] ]

/-- Specification-side definition, following the words of spec section 3:
the required fields of the canonical MarketEntry schema (id, symbol,
display name, image reference, current price, market cap, 24h volume, 24h
change percent, market-cap rank), written as the canonical field names the
consuming list page reads. -/
def specMarketEntryRequiredPaths : List (List String) :=
  [ ["id"], ["symbol"], ["name"], ["image"], ["current_price"], ["market_cap"]
  , ["total_volume"], ["price_change_percentage_24h"], ["market_cap_rank"] ]

/-- Specification-side definition, following the words of spec section 3:
the three parallel time-indexed sequences of the ChartSeries schema. -/
def specChartSeriesRequiredPaths : List (List String) :=
  [ ["prices"], ["market_caps"], ["total_volumes"] ]

/-- Truth of a predicate on every element of a JSON array (false on
non-arrays). -/
def JVal.allEntries (v : JVal) (p : JVal → Bool) : Bool :=
  match v with
  | JVal.arr xs => xs.all p
  | _ => false

/-- Length of the array stored under a field, zero when absent. -/
def JVal.arrLengthOfField (v : JVal) (k : String) : Nat :=
  match JVal.getField v k with
  | some w => JVal.arrLength w
  | none => 0

/-- The three change-percentage horizons that the mock detail generator does
not emit. -/
def missingHorizonPaths : List (List String) :=
  [ ["market_data", "price_change_percentage_60d"]
  , ["market_data", "price_change_percentage_200d"]
  , ["market_data", "price_change_percentage_1y"] ]

/-- Startup state of the api-client engine at a given clock value. -/
def initClientState (α : Type) (now : Nat) : ClientState α :=
  ⟨initialTracker, initialRequestTracker, [], now⟩

/-- An api-utils oracle on which every provider branch throws. -/
def utilEnvAllFail : UtilEnv := fun _ => Except.error ()

/-- An apiStatus value with every provider non-operational. -/
def utilStatusAllDown : UtilStatus :=
  ⟨false, false, false, false, 0, 0, 0, 0, UtilSource.primary⟩

/-- Concrete api-utils state for the exhaustion runs: every provider
non-operational and an empty session cache. -/
def utilStateAllDown : UtilState :=
  ⟨utilStatusAllDown, [], 1000000⟩

/-- A cache record whose stored number (the expiry instant that
getCryptoList passes as the timestamp argument) lies far in the past. -/
def staleEntry : UtilCacheEntry :=
  ⟨JVal.null, 1000⟩

/-- Api-utils state holding only the stale market-list record, observed at
a much later clock value. -/
def staleState : UtilState :=
  ⟨⟨true, true, true, true, 0, 0, 0, 0, UtilSource.primary⟩,
    [("crypto-list-usd", staleEntry)], 1000000000⟩

/-- A network oracle on which every attempt of every provider fails with a
generic HTTP error. -/
def netEnvAllHttpError : NetEnv Nat := fun _ _ => Outcome.httpError

/-- A network oracle on which coingecko always fails and every other
provider succeeds immediately. -/
def netEnvCoingeckoDown : NetEnv Nat := fun p _ =>
  match p with
  | Provider.coingecko => Outcome.httpError
  | _ => Outcome.ok 42

/-- A network oracle on which coingecko always answers 429 with a
Retry-After hint of 7 seconds and every other provider succeeds. -/
def netEnvCoingeckoRateLimited : NetEnv Nat := fun p _ =>
  match p with
  | Provider.coingecko => Outcome.rateLimited (some 7)
  | _ => Outcome.ok 42

/-- A request tracker whose coingecko window already holds ten fresh
timestamps. -/
def rtTenRequests : RequestTracker :=
  ⟨List.replicate 10 49000, [], [], false, false, false, false, 0, 0, 0, 0⟩

/-- A client state with every provider non-operational. -/
def clientStateAllDown : ClientState Nat :=
  ⟨⟨⟨false, 5, 1⟩, ⟨false, 5, 2⟩, ⟨false, 5, 3⟩, ⟨false, 5, 4⟩, ApiSource.mock⟩,
    initialRequestTracker, [], 777⟩

/-- A request tracker on which coingecko is currently flagged
rate-limited. -/
def rtRateLimitedCg : RequestTracker :=
  ⟨[], [], [], true, false, false, false, 0, 0, 0, 0⟩

theorem entry_setEntry_self (t : ClientTracker) (p : Provider) (e : ClientEntry) :
    (t.setEntry p e).entry p = e := by
  cases p <;> rfl

theorem entry_setEntry_ne (t : ClientTracker) {p q : Provider} (e : ClientEntry) (h : q ≠ p) :
    (t.setEntry p e).entry q = t.entry q := by
  cases p <;> cases q <;> first | rfl | exact absurd rfl h

theorem currentSource_setEntry (t : ClientTracker) (p : Provider) (e : ClientEntry) :
    (t.setEntry p e).currentSource = t.currentSource := by
  cases p <;> rfl

theorem setEntry_entry_self (t : ClientTracker) (p : Provider) :
    t.setEntry p (t.entry p) = t := by
  cases p <;> rfl

theorem entry_withCurrentSource (t : ClientTracker) (x : ApiSource) (p : Provider) :
    ({ t with currentSource := x }).entry p = t.entry p := by
  cases p <;> rfl

theorem mem_insertByPriority {t : ClientTracker} {a q : Provider} :
    ∀ {l : List Provider}, q ∈ insertByPriority t a l ↔ q = a ∨ q ∈ l := by
  intro l
  induction l with
  | nil => simp [insertByPriority]
  | cons b bs ih =>
    simp only [insertByPriority]
    split
    · simp
    · simp only [List.mem_cons, ih]
      tauto

theorem mem_sortByPriority {t : ClientTracker} {q : Provider} :
    ∀ {l : List Provider}, q ∈ sortByPriority t l ↔ q ∈ l := by
  intro l
  induction l with
  | nil => simp [sortByPriority]
  | cons b bs ih =>
    simp only [sortByPriority, mem_insertByPriority, List.mem_cons, ih]

theorem getNextAvailableApi_ne {t : ClientTracker} {p : Provider}
    (h : (t.entry p).operational = false) :
    t.getNextAvailableApi ≠ ApiSource.real p := by
  intro hcontra
  unfold ClientTracker.getNextAvailableApi at hcontra
  cases hq : sortByPriority t (allProviders.filter (fun r => (t.entry r).operational)) with
  | nil => rw [hq] at hcontra; exact ApiSource.noConfusion hcontra
  | cons q qs =>
    rw [hq] at hcontra
    have hqp : q = p := by injection hcontra
    have hmem : q ∈ sortByPriority t (allProviders.filter (fun r => (t.entry r).operational)) := by
      rw [hq]; exact List.mem_cons_self q qs
    rw [mem_sortByPriority] at hmem
    have hop := List.of_mem_filter hmem
    rw [hqp] at hop
    simp [h] at hop

theorem updateStatus_entry_self (t : ClientTracker) (p : Provider) (now : Nat) :
    (ClientTracker.updateStatus t p false now).entry p =
      ⟨false, now, (t.entry p).priority⟩ := by
  simp only [ClientTracker.updateStatus]
  split
  · rw [entry_withCurrentSource, entry_setEntry_self]
  · rw [entry_setEntry_self]

theorem updateStatus_false_currentSource_ne (t : ClientTracker) (p : Provider) (now : Nat) :
    ApiSource.real p ≠ (ClientTracker.updateStatus t p false now).currentSource := by
  simp only [ClientTracker.updateStatus]
  split
  case isTrue h =>
    intro hc
    exact getNextAvailableApi_ne (by rw [entry_setEntry_self]) hc.symm
  case isFalse h =>
    intro hc
    rw [currentSource_setEntry] at hc
    exact h ⟨by rw [currentSource_setEntry]; exact hc, trivial⟩

theorem updateStatus_noop (u : ClientTracker) (p : Provider) (now pr : Nat)
    (hA : u.entry p = ⟨false, now, pr⟩) (hB : ApiSource.real p ≠ u.currentSource) :
    ClientTracker.updateStatus u p false now = u := by
  simp only [ClientTracker.updateStatus]
  split
  case isTrue h =>
    exfalso
    have hc := h.1
    rw [currentSource_setEntry] at hc
    exact hB hc
  case isFalse h =>
    have he : ({ u.entry p with operational := false, lastChecked := now } : ClientEntry) =
        u.entry p := by
      rw [hA]
    rw [he, setEntry_entry_self]

/-- C9: marking a provider failed is idempotent in both status trackers:
applying the failure update twice (at one clock value) equals applying it
once, and the resulting ProviderStatus holds operational false together with
the single lastChecked value written by the update. -/
theorem c9_update_status_idempotent :
    (∀ (s : UtilStatus) (api : UtilApi) (now : Nat),
      UtilStatus.updateStatus (UtilStatus.updateStatus s api false now) api false now =
        UtilStatus.updateStatus s api false now ∧
      (UtilStatus.updateStatus s api false now).operationalOf api = false ∧
      (UtilStatus.updateStatus s api false now).lastCheckedOf api = now) ∧
    (∀ (t : ClientTracker) (p : Provider) (now : Nat),
      ClientTracker.updateStatus (ClientTracker.updateStatus t p false now) p false now =
        ClientTracker.updateStatus t p false now ∧
      ((ClientTracker.updateStatus t p false now).entry p).operational = false ∧
      ((ClientTracker.updateStatus t p false now).entry p).lastChecked = now) := by
  constructor
  · rintro ⟨p1, p2, p3, p4, m1, m2, m3, m4, cs⟩ api now
    cases api <;> cases cs <;> cases p1 <;> cases p2 <;> cases p3 <;> cases p4 <;>
      exact ⟨rfl, rfl, rfl⟩
  · intro t p now
    refine ⟨?_, ?_, ?_⟩
    · exact updateStatus_noop (ClientTracker.updateStatus t p false now) p now
        ((t.entry p).priority) (updateStatus_entry_self t p now)
        (updateStatus_false_currentSource_ne t p now)
    · rw [updateStatus_entry_self]
    · rw [updateStatus_entry_self]

/-- C10: the mock market-list generator is a pure function that never reads
its currency argument: any two currencies produce the identical fixed
ten-asset list. -/
theorem c10_mock_list_deterministic :
    (∀ c1 c2 : String, getMockCryptoList c1 = getMockCryptoList c2) ∧
    (∀ c : String, getMockCryptoList c = getMockCryptoList "usd") ∧
    (getMockCryptoList "usd").arrLength = 10 :=
  ⟨fun _ _ => rfl, fun _ => rfl, rfl⟩

/-- C7: the reset operation of either tracker unconditionally restores every
provider to operational (the api-client variant also repoints currentSource
at the highest-priority provider, the api-utils variant at primary); the
startup registration schedules both resets 60 seconds after startup and
every 15 minutes thereafter; and after a reset a previously non-operational
highest-priority provider heads the dispatcher's candidate list. -/
theorem c7_reset_recovers_providers :
    (∀ (l1 l2 l3 l4 : Nat) (b2 b3 b4 : Bool) (cs : ApiSource),
      ClientTracker.resetStatuses ⟨⟨false, l1, 1⟩, ⟨b2, l2, 2⟩, ⟨b3, l3, 3⟩, ⟨b4, l4, 4⟩, cs⟩ =
        ⟨⟨true, l1, 1⟩, ⟨true, l2, 2⟩, ⟨true, l3, 3⟩, ⟨true, l4, 4⟩,
          ApiSource.real Provider.coingecko⟩ ∧
      apisToTry
          (ClientTracker.resetStatuses ⟨⟨false, l1, 1⟩, ⟨b2, l2, 2⟩, ⟨b3, l3, 3⟩, ⟨b4, l4, 4⟩, cs⟩)
          none =
        [Provider.coingecko, Provider.coincap, Provider.cryptocompare, Provider.binance]) ∧
    (∀ u : UtilStatus, UtilStatus.resetStatuses u =
      ⟨true, true, true, true, 0, 0, 0, 0, UtilSource.primary⟩) ∧
    initApiServices = (⟨60 * 1000, 15 * 60 * 1000⟩, ⟨60 * 1000, 15 * 60 * 1000⟩) ∧
    (15 * 60 * 1000 = 900000 ∧ 60 * 1000 = 60000) :=
  ⟨fun _ _ _ _ _ _ _ _ => ⟨rfl, rfl⟩, fun _ => rfl, rfl, rfl, rfl⟩

/-- C3 (code bug): the api-utils cache read path serves entries past their
expiry.  getCryptoList stores each entry with the number now plus TTL, yet
cacheUtilsGet performs no expiry comparison, so a fetch with
forceRefresh false returns a record whose stored expiry instant lies far in
the past; the parallel api-client reader getCachedData does evict an
expired record and miss, as the claim requires. -/
theorem c3_expired_entry_served :
    (getCryptoList utilEnvAllFail "usd" false staleState).1 = JVal.null ∧
    (getCryptoList utilEnvAllFail "usd" false staleState).2 = staleState ∧
    staleEntry.timestamp < staleState.now ∧
    staleEntry.timestamp + cacheConfigMarketsList < staleState.now ∧
    getCachedData ([("k", ⟨7, ApiSource.mock, 0, 600000⟩)] : ClientCache Nat) 1000000000 "k" =
      (none, []) :=
  ⟨rfl, rfl, by decide, by decide, rfl⟩

/-- C8 (amended): the limiter appends the new timestamp and then prunes the
window; when the resulting count exceeds the policy maximum it returns
false, flags the provider rate-limited with a reset one window ahead, and
the rejected request's timestamp remains counted in the window; providers
without a timestamp array (coincap) or without a configured policy
(binance) always return true. -/
theorem c8_rate_limiter_behavior (rt : RequestTracker) (now : Nat) :
    (RequestTracker.addRequest rt Provider.coincap now = (rt, true)) ∧
    ((RequestTracker.addRequest rt Provider.binance now).2 = true) ∧
    ((RequestTracker.addRequest rt Provider.coingecko now).2 = false ↔
      10 < ((RequestTracker.addRequest rt Provider.coingecko now).1).coingeckoTimes.length) ∧
    (now ∈ ((RequestTracker.addRequest rt Provider.coingecko now).1).coingeckoTimes) ∧
    (∀ time ∈ ((RequestTracker.addRequest rt Provider.coingecko now).1).coingeckoTimes,
      liveInWindow now 60000 time = true) ∧
    ((RequestTracker.addRequest rt Provider.coingecko now).2 = false →
      ((RequestTracker.addRequest rt Provider.coingecko now).1).rlCoingecko = true ∧
      ((RequestTracker.addRequest rt Provider.coingecko now).1).rstCoingecko = now + 60000) := by
  have key : RequestTracker.addRequest rt Provider.coingecko now =
      (if 10 < ((rt.coingeckoTimes ++ [now]).filter (liveInWindow now 60000)).length then
        ({ rt with
            coingeckoTimes := (rt.coingeckoTimes ++ [now]).filter (liveInWindow now 60000)
            rlCoingecko := true
            rstCoingecko := now + 60000 }, false)
      else
        ({ rt with
            coingeckoTimes := (rt.coingeckoTimes ++ [now]).filter (liveInWindow now 60000) },
          true)) := rfl
  have hself : liveInWindow now 60000 now = true := by
    simp only [liveInWindow, decide_eq_true_eq]
    omega
  refine ⟨rfl, rfl, ?_, ?_, ?_, ?_⟩ <;> rw [key] <;> split
  · simp_all [List.filter_append]
  · simp_all [List.filter_append]
  · exact List.mem_filter.mpr ⟨by simp, hself⟩
  · exact List.mem_filter.mpr ⟨by simp, hself⟩
  · intro time ht
    exact (List.mem_filter.mp ht).2
  · intro time ht
    exact (List.mem_filter.mp ht).2
  · intro hfalse
    exact ⟨rfl, rfl⟩
  · intro hfalse
    simp at hfalse

/-- C8 counterexample: with ten fresh timestamps already in the coingecko
window, the eleventh request is refused, yet its timestamp stays stored:
the window afterwards holds eleven entries including the rejected one,
contradicting the claim that the rejected request does not remain
counted. -/
theorem c8_rejected_request_still_counted :
    (rtTenRequests.addRequest Provider.coingecko 50000).2 = false ∧
    ((rtTenRequests.addRequest Provider.coingecko 50000).1).coingeckoTimes.length = 11 ∧
    (50000 ∈ ((rtTenRequests.addRequest Provider.coingecko 50000).1).coingeckoTimes) := by
  decide

/-- C8 witness: the amended limiter behavior applied at the concrete
counterexample tracker and clock, no-policy conjunct. -/
theorem c8_rate_limiter_behavior_witness :
    RequestTracker.addRequest rtTenRequests Provider.coincap 50000 = (rtTenRequests, true) :=
  (c8_rate_limiter_behavior rtTenRequests 50000).1


/-- C1 (amended): with every provider non-operational and no cached entry,
each of the three logical queries falls back to its mock payload without
raising (the embedded cascades are total, reflecting that every fetch error
is caught inside the source functions), sets the source label to mock, and
writes nothing to the cache.  The mock market list carries every MarketEntry
field on each of its ten entries; the mock chart payload carries the three
ChartSeries sequences, of equal length; the mock detail payload carries
every required AssetDetail field except the 60d, 200d and 1y
change-percentage horizons, which are absent. -/
theorem c1_mock_fallback_on_exhaustion :
    (∀ (env : UtilEnv) (currency : String) (s : UtilState),
      s.status.primaryOperational = false →
      s.status.secondaryOperational = false →
      s.status.tertiaryOperational = false →
      s.status.quaternaryOperational = false →
      cacheUtilsGet s.cache ("crypto-list-" ++ currency) = none →
      (getCryptoList env currency false s).1 = getMockCryptoList currency ∧
      ((getCryptoList env currency false s).2).status.currentSource = UtilSource.mock ∧
      ((getCryptoList env currency false s).2).cache = s.cache) ∧
    (∀ currency : String,
      (getMockCryptoList currency).allEntries
        (fun e => specMarketEntryRequiredPaths.all (fun f => JVal.hasPath e f)) = true) ∧
    (∀ (env : UtilEnv) (rand : Nat → ℚ) (id currency : String) (days : Nat) (s : UtilState),
      s.status.primaryOperational = false →
      s.status.secondaryOperational = false →
      s.status.tertiaryOperational = false →
      s.status.quaternaryOperational = false →
      cacheUtilsGet s.cache ("chart-" ++ id ++ "-" ++ currency ++ "-" ++ toString days) = none →
      (getCryptoChartData env rand id currency days false s).1 =
        getMockChartData id currency days s.now rand ∧
      ((getCryptoChartData env rand id currency days false s).2).status.currentSource =
        UtilSource.mock ∧
      ((getCryptoChartData env rand id currency days false s).2).cache = s.cache) ∧
    (∀ (id currency : String) (days now : Nat) (rand : Nat → ℚ),
      (specChartSeriesRequiredPaths.all
        (fun f => (getMockChartData id currency days now rand).hasPath f)) = true ∧
      (getMockChartData id currency days now rand).arrLengthOfField "prices" =
        (getMockChartData id currency days now rand).arrLengthOfField "market_caps" ∧
      (getMockChartData id currency days now rand).arrLengthOfField "prices" =
        (getMockChartData id currency days now rand).arrLengthOfField "total_volumes") ∧
    (∀ (env : UtilEnv) (s : UtilState),
      s.status.primaryOperational = false →
      s.status.secondaryOperational = false →
      s.status.tertiaryOperational = false →
      s.status.quaternaryOperational = false →
      cacheUtilsGet s.cache "crypto-detail-bitcoin-usd" = none →
      (getCryptoDetail env "bitcoin" "usd" false s).1 =
        getMockCryptoDetail "bitcoin" "usd" s.now ∧
      ((getCryptoDetail env "bitcoin" "usd" false s).2).status.currentSource =
        UtilSource.mock ∧
      ((getCryptoDetail env "bitcoin" "usd" false s).2).cache = s.cache ∧
      ((specAssetDetailRequiredPaths.filter (fun path => path ∉ missingHorizonPaths)).all
        (fun path => (getMockCryptoDetail "bitcoin" "usd" s.now).hasPath path)) = true) := by
  refine ⟨?_, fun _ => rfl, ?_, ?_, ?_⟩
  · intro env currency s h1 h2 h3 h4 hc
    refine ⟨?_, ?_, ?_⟩ <;>
      simp [getCryptoList, hc, utilCascade, UtilStatus.operationalOf, h1, h2, h3, h4]
  · intro env rand id currency days s h1 h2 h3 h4 hc
    refine ⟨?_, ?_, ?_⟩ <;>
      simp [getCryptoChartData, hc, utilCascade, UtilStatus.operationalOf, h1, h2, h3, h4]
  · intro id currency days now rand
    refine ⟨rfl, ?_, ?_⟩ <;>
      simp [getMockChartData, JVal.arrLengthOfField, JVal.getField, JVal.arrLength,
        List.length_map, List.enum_length]
  · intro env s h1 h2 h3 h4 hc
    refine ⟨?_, ?_, ?_, rfl⟩ <;>
      simp [getCryptoDetail, hc, utilCascade, UtilStatus.operationalOf, h1, h2, h3]

/-- C1 counterexample: the 60-day, 200-day and 1-year change percentages
are required AssetDetail fields, yet the mock detail payload contains no
such fields. -/
theorem c1_required_field_missing :
    (["market_data", "price_change_percentage_60d"] ∈ specAssetDetailRequiredPaths) ∧
    JVal.hasPath (getMockCryptoDetail "bitcoin" "usd" 1700000000000)
      ["market_data", "price_change_percentage_60d"] = false ∧
    JVal.hasPath (getMockCryptoDetail "bitcoin" "usd" 1700000000000)
      ["market_data", "price_change_percentage_200d"] = false ∧
    JVal.hasPath (getMockCryptoDetail "bitcoin" "usd" 1700000000000)
      ["market_data", "price_change_percentage_1y"] = false :=
  ⟨by decide, rfl, rfl, rfl⟩

/-- C1 witness: the market-list exhaustion run at the concrete all-down
state returns exactly the mock list. -/
theorem c1_mock_fallback_on_exhaustion_witness :
    (getCryptoList utilEnvAllFail "usd" false utilStateAllDown).1 = getMockCryptoList "usd" :=
  (c1_mock_fallback_on_exhaustion.1 utilEnvAllFail "usd" utilStateAllDown rfl rfl rfl rfl rfl).1

/-- C6 counterexample: a getCryptoList run in which every provider is
non-operational manufactures the mock list and sets the source label to
mock, yet afterwards the cache holds nothing under the query key: the mock
result was not written to the cache at all. -/
theorem c6_mock_not_cached_by_list_path :
    (getCryptoList utilEnvAllFail "usd" false utilStateAllDown).1 = getMockCryptoList "usd" ∧
    ((getCryptoList utilEnvAllFail "usd" false utilStateAllDown).2).status.currentSource =
      UtilSource.mock ∧
    cacheUtilsGet ((getCryptoList utilEnvAllFail "usd" false utilStateAllDown).2).cache
      "crypto-list-usd" = none :=
  ⟨rfl, rfl, rfl⟩

theorem fetchFromApiLoop_step_httpError {α : Type} {env : NetEnv α} {p : Provider}
    {now idx f : Nat} {rt : RequestTracker} {last : ErrKind}
    (h : env p idx = Outcome.httpError) :
    fetchFromApiLoop env p now idx (f + 1) rt last =
      ((fetchFromApiLoop env p now (idx + 1) f rt ErrKind.generic).1,
       (fetchFromApiLoop env p now (idx + 1) f rt ErrKind.generic).2.1,
       (fetchFromApiLoop env p now (idx + 1) f rt ErrKind.generic).2.2 + 1) := by
  simp only [fetchFromApiLoop, h]

theorem fetchFromApiLoop_step_ok {α : Type} {env : NetEnv α} {p : Provider}
    {now idx f : Nat} {rt : RequestTracker} {last : ErrKind} {a : α}
    (h : env p idx = Outcome.ok a) :
    fetchFromApiLoop env p now idx (f + 1) rt last = (Except.ok a, rt, 1) := by
  simp only [fetchFromApiLoop, h]

theorem fetchFromApiLoop_step_rateLimited {α : Type} {env : NetEnv α} {p : Provider}
    {now idx f : Nat} {rt : RequestTracker} {last : ErrKind} {secs : Nat}
    (h : env p idx = Outcome.rateLimited (some secs)) :
    fetchFromApiLoop env p now idx (f + 1) rt last =
      (Except.error ErrKind.rateLimit, (rt.setRl p true).setRst p (now + secs * 1000), 1) := by
  simp only [fetchFromApiLoop, h]

theorem fetchFromApiLoop_allHttpError {α : Type} {env : NetEnv α} {p : Provider}
    (h : ∀ k, env p k = Outcome.httpError) (now : Nat) :
    ∀ (f idx : Nat) (rt : RequestTracker) (last : ErrKind),
      fetchFromApiLoop env p now idx (f + 1) rt last =
        (Except.error ErrKind.generic, rt, f + 1) := by
  intro f
  induction f with
  | zero =>
    intro idx rt last
    rw [fetchFromApiLoop_step_httpError (h idx)]
    simp [fetchFromApiLoop]
  | succ f ih =>
    intro idx rt last
    rw [fetchFromApiLoop_step_httpError (h idx), ih (idx + 1)]

theorem outerRetryLoop_succ {α : Type} (env : NetEnv α) (p : Provider)
    (now retries rem idx : Nat) (rt : RequestTracker) :
    outerRetryLoop env p now retries (rem + 1) idx rt =
      (match fetchFromApi env p now retries idx rt with
       | (Except.ok a, rt1, n) => (Except.ok a, rt1, n)
       | (Except.error e, rt1, n) =>
         if rem = 0 then (Except.error e, rt1, n)
         else
           let r := outerRetryLoop env p now retries rem (idx + n) rt1
           (r.1, r.2.1, r.2.2 + n)) := rfl

theorem outerRetryLoop_allHttpError {α : Type} {env : NetEnv α} {p : Provider}
    (h : ∀ k, env p k = Outcome.httpError) (now retries : Nat) :
    ∀ (rem idx : Nat) (rt : RequestTracker),
      outerRetryLoop env p now retries rem idx rt =
        (Except.error ErrKind.generic, rt, rem * (retries + 1)) := by
  intro rem
  induction rem with
  | zero => intro idx rt; simp [outerRetryLoop]
  | succ rem ih =>
    intro idx rt
    rw [outerRetryLoop_succ]
    simp only [fetchFromApi]
    rw [fetchFromApiLoop_allHttpError h]
    rcases Nat.eq_zero_or_pos rem with hz | hpos
    · subst hz
      simp
    · have hne : rem ≠ 0 := Nat.pos_iff_ne_zero.mp hpos
      simp only [hne, if_false, ih]
      simp
      ring

theorem outerRetryLoop_ok {α : Type} {env : NetEnv α} {p : Provider}
    {now retries idx : Nat} {rt : RequestTracker} {a : α}
    (h : env p idx = Outcome.ok a) :
    ∀ rem : Nat, outerRetryLoop env p now retries (rem + 1) idx rt = (Except.ok a, rt, 1) := by
  intro rem
  rw [outerRetryLoop_succ]
  simp only [fetchFromApi]
  rw [fetchFromApiLoop_step_ok h]

theorem setRl_setRst_setRl_setRst (rt : RequestTracker) (p : Provider) (v : Nat) :
    ((((rt.setRl p true).setRst p v).setRl p true).setRst p v) = (rt.setRl p true).setRst p v := by
  cases p <;> rfl

theorem outerRetryLoop_allRateLimited {α : Type} {env : NetEnv α} {p : Provider} {secs : Nat}
    (h : ∀ k, env p k = Outcome.rateLimited (some secs)) (now retries : Nat) :
    ∀ (rem idx : Nat) (rt : RequestTracker),
      outerRetryLoop env p now retries (rem + 1) idx rt =
        (Except.error ErrKind.rateLimit,
         (rt.setRl p true).setRst p (now + secs * 1000), rem + 1) := by
  intro rem
  induction rem with
  | zero =>
    intro idx rt
    rw [outerRetryLoop_succ]
    simp only [fetchFromApi]
    rw [fetchFromApiLoop_step_rateLimited (h idx)]
    simp
  | succ rem ih =>
    intro idx rt
    rw [outerRetryLoop_succ]
    simp only [fetchFromApi]
    rw [fetchFromApiLoop_step_rateLimited (h idx)]
    have hne : rem + 1 ≠ 0 := Nat.succ_ne_zero rem
    simp only [hne, if_false, ih, setRl_setRst_setRl_setRst]

theorem fetchFromApiLoop_count_le {α : Type} (env : NetEnv α) (p : Provider) (now : Nat) :
    ∀ (f idx : Nat) (rt : RequestTracker) (last : ErrKind),
      (fetchFromApiLoop env p now idx f rt last).2.2 ≤ f := by
  intro f
  induction f with
  | zero => intro idx rt last; simp [fetchFromApiLoop]
  | succ f ih =>
    intro idx rt last
    simp only [fetchFromApiLoop]
    cases env p idx with
    | ok a => simp
    | rateLimited hint => simp
    | timeout => simp
    | httpError =>
      simp only []
      have := ih (idx + 1) rt ErrKind.generic
      omega

theorem outerRetryLoop_count_le {α : Type} (env : NetEnv α) (p : Provider) (now retries : Nat) :
    ∀ (rem idx : Nat) (rt : RequestTracker),
      (outerRetryLoop env p now retries rem idx rt).2.2 ≤ rem * (retries + 1) := by
  intro rem
  induction rem with
  | zero => intro idx rt; simp [outerRetryLoop]
  | succ rem ih =>
    intro idx rt
    rw [outerRetryLoop_succ]
    rcases hr : fetchFromApi env p now retries idx rt with ⟨r, rt1, n⟩
    have hn : n ≤ retries + 1 := by
      have := fetchFromApiLoop_count_le env p now (retries + 1) idx rt ErrKind.generic
      rw [show fetchFromApiLoop env p now idx (retries + 1) rt ErrKind.generic =
        fetchFromApi env p now retries idx rt from rfl, hr] at this
      exact this
    cases r with
    | ok a =>
      simp only []
      calc n ≤ retries + 1 := hn
      _ ≤ (rem + 1) * (retries + 1) := Nat.le_mul_of_pos_left _ (Nat.succ_pos rem)
    | error e =>
      simp only []
      split
      · calc n ≤ retries + 1 := hn
        _ ≤ (rem + 1) * (retries + 1) := Nat.le_mul_of_pos_left _ (Nat.succ_pos rem)
      · have := ih (idx + n) rt1
        have hgoal : (outerRetryLoop env p now retries rem (idx + n) rt1).2.2 + n ≤
            (rem + 1) * (retries + 1) := by
          have hx : rem * (retries + 1) + (retries + 1) = (rem + 1) * (retries + 1) := by ring
          omega
        exact hgoal

theorem rlOf_setTimes (rt : RequestTracker) (q : Provider) (ts : List Nat) (p : Provider) :
    ((rt.setTimes q ts).rlOf p) = rt.rlOf p := by
  cases q <;> cases p <;> rfl

theorem rlOf_setRst (rt : RequestTracker) (q : Provider) (v : Nat) (p : Provider) :
    ((rt.setRst q v).rlOf p) = rt.rlOf p := by
  cases q <;> cases p <;> rfl

theorem rlOf_setRl_ne (rt : RequestTracker) {q p : Provider} (b : Bool) (h : q ≠ p) :
    ((rt.setRl q b).rlOf p) = rt.rlOf p := by
  cases q <;> cases p <;> first | rfl | exact absurd rfl h

theorem rlOf_cleanOldRequests (rt : RequestTracker) (q : Provider) (now : Nat) (p : Provider) :
    ((rt.cleanOldRequests q now).rlOf p) = rt.rlOf p := by
  unfold RequestTracker.cleanOldRequests
  cases hq : rt.times q with
  | none => rfl
  | some ts =>
    cases hc : rateLimitConfig q with
    | none => rfl
    | some mw => cases mw with
      | mk m w => simp only [rlOf_setTimes]

theorem rlOf_addRequest_ne (rt : RequestTracker) {q p : Provider} (now : Nat) (h : q ≠ p) :
    (((rt.addRequest q now).1).rlOf p) = rt.rlOf p := by
  unfold RequestTracker.addRequest
  cases hq : rt.times q with
  | none => rfl
  | some ts =>
    cases hc : rateLimitConfig q with
    | none =>
      simp only [hc, rlOf_cleanOldRequests, rlOf_setTimes]
    | some mw =>
      cases mw with
      | mk m w =>
        simp only [hc]
        split
        · simp only [rlOf_setRst, rlOf_setRl_ne _ _ h, rlOf_cleanOldRequests, rlOf_setTimes]
        · simp only [rlOf_cleanOldRequests, rlOf_setTimes]

theorem rlOf_fetchFromApiLoop_ne {α : Type} (env : NetEnv α) {q p : Provider} (now : Nat)
    (h : q ≠ p) :
    ∀ (f idx : Nat) (rt : RequestTracker) (last : ErrKind),
      (((fetchFromApiLoop env q now idx f rt last).2.1).rlOf p) = rt.rlOf p := by
  intro f
  induction f with
  | zero => intro idx rt last; rfl
  | succ f ih =>
    intro idx rt last
    simp only [fetchFromApiLoop]
    cases env q idx with
    | ok a => rfl
    | rateLimited hint => simp only [rlOf_setRst, rlOf_setRl_ne _ _ h]
    | timeout => rfl
    | httpError => simp only []; exact ih (idx + 1) rt ErrKind.generic

theorem rlOf_outerRetryLoop_ne {α : Type} (env : NetEnv α) {q p : Provider} (now retries : Nat)
    (h : q ≠ p) :
    ∀ (rem idx : Nat) (rt : RequestTracker),
      (((outerRetryLoop env q now retries rem idx rt).2.1).rlOf p) = rt.rlOf p := by
  intro rem
  induction rem with
  | zero => intro idx rt; rfl
  | succ rem ih =>
    intro idx rt
    rw [outerRetryLoop_succ]
    rcases hr : fetchFromApi env q now retries idx rt with ⟨r, rt1, n⟩
    have hrt1 : rt1.rlOf p = rt.rlOf p := by
      have := rlOf_fetchFromApiLoop_ne env now h (retries + 1) idx rt ErrKind.generic
      rw [show fetchFromApiLoop env q now idx (retries + 1) rt ErrKind.generic =
        fetchFromApi env q now retries idx rt from rfl, hr] at this
      exact this
    cases r with
    | ok a => simpa using hrt1
    | error e =>
      simp only []
      split
      · simpa using hrt1
      · rw [ih (idx + n) rt1, hrt1]

theorem entry_updateStatus_ne (t : ClientTracker) {q p : Provider} (b : Bool) (now : Nat)
    (h : q ≠ p) :
    ((ClientTracker.updateStatus t q b now).entry p) = t.entry p := by
  simp only [ClientTracker.updateStatus]
  split
  · rw [entry_withCurrentSource, entry_setEntry_ne _ _ (Ne.symm h)]
  · rw [entry_setEntry_ne _ _ (Ne.symm h)]


theorem tryApis_nil {α : Type} (env : NetEnv α) (ck : Option String) (ct R : Nat)
    (s : ClientState α) : tryApis env ck ct R [] s = (none, s, []) := rfl

theorem tryApis_cons_skip {α : Type} (env : NetEnv α) (ck : Option String) (ct R : Nat)
    {q : Provider} {s : ClientState α} (hq : s.rt.rlOf q = true) (qs : List Provider) :
    tryApis env ck ct R (q :: qs) s = tryApis env ck ct R qs s := by
  simp only [tryApis, hq, if_true]

theorem tryApis_rl_invariant {α : Type} (env : NetEnv α) (ck : Option String) (ct R : Nat)
    (p : Provider) :
    ∀ (list : List Provider) (s : ClientState α),
      s.rt.rlOf p = true →
      ((tryApis env ck ct R list s).2.1.tracker.entry p = s.tracker.entry p ∧
       (tryApis env ck ct R list s).2.1.rt.rlOf p = true ∧
       p ∉ (tryApis env ck ct R list s).2.2) := by
  intro list
  induction list with
  | nil =>
    intro s h
    exact ⟨rfl, h, by simp [tryApis_nil]⟩
  | cons q qs ih =>
    intro s h
    by_cases hq : s.rt.rlOf q = true
    · rw [tryApis_cons_skip env ck ct R hq qs]
      exact ih s h
    · have hq2 : s.rt.rlOf q = false := by
        cases hb : s.rt.rlOf q
        · rfl
        · exact absurd hb hq
      have hqp : q ≠ p := by
        intro e
        subst e
        rw [h] at hq2
        exact Bool.noConfusion hq2
      have hrt0 : ((s.rt.addRequest q s.now).1).rlOf p = s.rt.rlOf p :=
        rlOf_addRequest_ne s.rt s.now hqp
      simp only [tryApis, hq2, Bool.false_eq_true, if_false]
      rcases hout : outerRetryLoop env q s.now R R 0 ((s.rt.addRequest q s.now).1) with ⟨r, rt1, n⟩
      have hrt1 : rt1.rlOf p = true := by
        have := rlOf_outerRetryLoop_ne env s.now R hqp R 0 ((s.rt.addRequest q s.now).1)
        rw [hout] at this
        simp only at this
        rw [this, hrt0, h]
      cases r with
      | ok a =>
        simp only []
        refine ⟨?_, hrt1, ?_⟩
        · rw [entry_withCurrentSource, entry_updateStatus_ne _ _ _ hqp]
        · intro hmem
          rw [List.mem_replicate] at hmem
          exact hqp hmem.2.symm
      | error e =>
        simp only []
        have hnext := ih ⟨ClientTracker.updateStatus s.tracker q false s.now, rt1, s.cache, s.now⟩
          (by simpa using hrt1)
        refine ⟨?_, hnext.2.1, ?_⟩
        · rw [hnext.1]
          simp only []
          exact entry_updateStatus_ne _ _ _ hqp
        · intro hmem
          rw [List.mem_append] at hmem
          cases hmem with
          | inl hm =>
            rw [List.mem_replicate] at hm
            exact hqp hm.2.symm
          | inr hm => exact hnext.2.2 hm

theorem insertByPriority_perm (t : ClientTracker) (a : Provider) :
    ∀ l : List Provider, List.Perm (insertByPriority t a l) (a :: l) := by
  intro l
  induction l with
  | nil => exact List.Perm.refl _
  | cons b bs ih =>
    simp only [insertByPriority]
    split
    · exact List.Perm.refl _
    · exact (List.Perm.cons b ih).trans (List.Perm.swap a b bs)

theorem sortByPriority_perm (t : ClientTracker) :
    ∀ l : List Provider, List.Perm (sortByPriority t l) l := by
  intro l
  induction l with
  | nil => exact List.Perm.refl _
  | cons b bs ih =>
    simp only [sortByPriority]
    exact (insertByPriority_perm t b (sortByPriority t bs)).trans (List.Perm.cons b ih)

theorem apisToTry_nodup (t : ClientTracker) (preferred : Option Provider) :
    (apisToTry t preferred).Nodup := by
  have hall : ((allProviders.filter (fun q => some q ≠ preferred)).filter
      (fun q => (t.entry q).operational)).Nodup := by
    apply List.Nodup.filter
    apply List.Nodup.filter
    decide
  have hsorted : (sortByPriority t ((allProviders.filter (fun q => some q ≠ preferred)).filter
      (fun q => (t.entry q).operational))).Nodup :=
    ((sortByPriority_perm t _).nodup_iff).mpr hall
  unfold apisToTry
  cases preferred with
  | none => simpa using hsorted
  | some p0 =>
    by_cases hb : (t.entry p0).operational
    · simp only [hb, if_true]
      refine List.Nodup.cons ?_ hsorted
      intro hmem
      simp only [List.nil_append, List.append_eq, List.append_nil] at hmem
      rw [mem_sortByPriority] at hmem
      have hmem1 := List.mem_of_mem_filter hmem
      have := List.of_mem_filter hmem1
      simp at this
    · simp only [hb]
      simpa using hsorted

theorem tryApis_not_mem_trace {α : Type} (env : NetEnv α) (ck : Option String) (ct R : Nat)
    {p : Provider} :
    ∀ (list : List Provider) (s : ClientState α), p ∉ list →
      p ∉ (tryApis env ck ct R list s).2.2 := by
  intro list
  induction list with
  | nil => intro s hp; simp [tryApis_nil]
  | cons q qs ih =>
    intro s hp
    have hpq : p ≠ q := fun e => hp (e ▸ List.mem_cons_self q qs)
    have hpqs : p ∉ qs := fun m => hp (List.mem_cons_of_mem q m)
    by_cases hq : s.rt.rlOf q = true
    · rw [tryApis_cons_skip env ck ct R hq qs]
      exact ih s hpqs
    · have hq2 : s.rt.rlOf q = false := by
        cases hb : s.rt.rlOf q
        · rfl
        · exact absurd hb hq
      simp only [tryApis, hq2, Bool.false_eq_true, if_false]
      rcases hout : outerRetryLoop env q s.now R R 0 ((s.rt.addRequest q s.now).1) with ⟨r, rt1, n⟩
      cases r with
      | ok a =>
        simp only []
        intro hmem
        rw [List.mem_replicate] at hmem
        exact hpq hmem.2
      | error e =>
        simp only []
        intro hmem
        rw [List.mem_append] at hmem
        cases hmem with
        | inl hm =>
          rw [List.mem_replicate] at hm
          exact hpq hm.2
        | inr hm =>
          exact ih ⟨ClientTracker.updateStatus s.tracker q false s.now, rt1, s.cache, s.now⟩ hpqs hm

theorem tryApis_count_le {α : Type} (env : NetEnv α) (ck : Option String) (ct R : Nat)
    (p : Provider) :
    ∀ (list : List Provider) (s : ClientState α), list.Nodup →
      ((tryApis env ck ct R list s).2.2).count p ≤ R * (R + 1) := by
  intro list
  induction list with
  | nil => intro s hnd; simp [tryApis_nil]
  | cons q qs ih =>
    intro s hnd
    rw [List.nodup_cons] at hnd
    by_cases hq : s.rt.rlOf q = true
    · rw [tryApis_cons_skip env ck ct R hq qs]
      exact ih s hnd.2
    · have hq2 : s.rt.rlOf q = false := by
        cases hb : s.rt.rlOf q
        · rfl
        · exact absurd hb hq
      simp only [tryApis, hq2, Bool.false_eq_true, if_false]
      rcases hout : outerRetryLoop env q s.now R R 0 ((s.rt.addRequest q s.now).1) with ⟨r, rt1, n⟩
      have hn : n ≤ R * (R + 1) := by
        have := outerRetryLoop_count_le env q s.now R R 0 ((s.rt.addRequest q s.now).1)
        rw [hout] at this
        exact this
      cases r with
      | ok a =>
        simp only []
        by_cases hpq : p = q
        · subst hpq
          rw [List.count_replicate]
          simpa using hn
        · rw [List.count_replicate]
          have hb : (q == p) = false := beq_eq_false_iff_ne.mpr (Ne.symm hpq)
          rw [hb]
          simp
      | error e =>
        simp only []
        rw [List.count_append]
        by_cases hpq : p = q
        · subst hpq
          have hzero : ((tryApis env ck ct R qs
              ⟨ClientTracker.updateStatus s.tracker p false s.now, rt1, s.cache, s.now⟩).2.2).count p = 0 := by
            apply List.count_eq_zero_of_not_mem
            exact tryApis_not_mem_trace env ck ct R qs _ hnd.1
          rw [hzero, List.count_replicate]
          simpa using hn
        · rw [List.count_replicate]
          have hb : (q == p) = false := beq_eq_false_iff_ne.mpr (Ne.symm hpq)
          rw [hb]
          have := ih ⟨ClientTracker.updateStatus s.tracker q false s.now, rt1, s.cache, s.now⟩ hnd.2
          simpa using this

theorem fetchCryptoData_shape {α : Type} (env : NetEnv α) (mockData : α)
    (preferred : Option Provider) (ck : Option String) (ct : Nat) (ff : Bool) (R : Nat)
    (s : ClientState α) :
    ((fetchCryptoData env mockData preferred ck ct ff R s).2.1.tracker = s.tracker ∧
     (fetchCryptoData env mockData preferred ck ct ff R s).2.1.rt = s.rt ∧
     (fetchCryptoData env mockData preferred ck ct ff R s).2.2 = []) ∨
    (∃ s1 : ClientState α, s1.tracker = s.tracker ∧ s1.rt = s.rt ∧ s1.now = s.now ∧
      (fetchCryptoData env mockData preferred ck ct ff R s).2.1.tracker =
        (tryApis env ck ct R (apisToTry s.tracker preferred) s1).2.1.tracker ∧
      (fetchCryptoData env mockData preferred ck ct ff R s).2.1.rt =
        (tryApis env ck ct R (apisToTry s.tracker preferred) s1).2.1.rt ∧
      (fetchCryptoData env mockData preferred ck ct ff R s).2.2 =
        (tryApis env ck ct R (apisToTry s.tracker preferred) s1).2.2) := by
  cases ck with
  | none =>
    right
    refine ⟨s, rfl, rfl, rfl, ?_, ?_, ?_⟩ <;>
    · rcases htry : tryApis env none ct R (apisToTry s.tracker preferred) s with ⟨r, s2, tr⟩
      cases r with
      | some ap =>
        rcases ap with ⟨a, p⟩
        simp [fetchCryptoData, htry]
      | none => simp [fetchCryptoData, htry]
  | some k =>
    cases ff with
    | true =>
      right
      refine ⟨s, rfl, rfl, rfl, ?_, ?_, ?_⟩ <;>
      · rcases htry : tryApis env (some k) ct R (apisToTry s.tracker preferred) s with ⟨r, s2, tr⟩
        cases r with
        | some ap =>
          rcases ap with ⟨a, p⟩
          simp [fetchCryptoData, htry]
        | none => simp [fetchCryptoData, htry]
    | false =>
      rcases hcd : getCachedData s.cache s.now k with ⟨ho, c2⟩
      cases ho with
      | some e =>
        left
        refine ⟨?_, ?_, ?_⟩ <;> simp [fetchCryptoData, hcd]
      | none =>
        right
        refine ⟨⟨s.tracker, s.rt, c2, s.now⟩, rfl, rfl, rfl, ?_, ?_, ?_⟩ <;>
        · rcases htry : tryApis env (some k) ct R (apisToTry s.tracker preferred)
              ⟨s.tracker, s.rt, c2, s.now⟩ with ⟨r, s2, tr⟩
          cases r with
          | some ap =>
            rcases ap with ⟨a, p⟩
            simp [fetchCryptoData, hcd, htry]
          | none => simp [fetchCryptoData, hcd, htry]

theorem addRequest_coingecko_fresh (rt : RequestTracker) (now : Nat) (h : rt.coingeckoTimes = []) :
    rt.addRequest Provider.coingecko now = ({ rt with coingeckoTimes := [now] }, true) := by
  have hf : liveInWindow now 60000 now = true := by
    simp only [liveInWindow, decide_eq_true_eq]
    omega
  unfold RequestTracker.addRequest RequestTracker.cleanOldRequests
  simp only [RequestTracker.times, h]
  simp only [RequestTracker.setTimes, RequestTracker.times, rateLimitConfig]
  simp [hf]

/-- C2: the dispatcher of fetchCryptoData builds its candidate list in
ascending priority order (for every assignment of operational flags over
the registry priorities 1 to 4) and stops at the first success: when the
priority-1 provider fails every attempt and the priority-2 provider
succeeds immediately, the result carries the priority-2 source and the
priority-3 and priority-4 providers are never contacted. -/
theorem c2_priority_order_first_success {α : Type} (env : NetEnv α) (mockData a : α)
    (now : Nat)
    (h1 : ∀ k, env Provider.coingecko k = Outcome.httpError)
    (h2 : env Provider.coincap 0 = Outcome.ok a) :
    (∀ (b1 b2 b3 b4 : Bool) (l1 l2 l3 l4 : Nat) (cs : ApiSource),
      List.Pairwise
        (fun x y =>
          ((⟨⟨b1, l1, 1⟩, ⟨b2, l2, 2⟩, ⟨b3, l3, 3⟩, ⟨b4, l4, 4⟩, cs⟩ : ClientTracker).entry x).priority ≤
          ((⟨⟨b1, l1, 1⟩, ⟨b2, l2, 2⟩, ⟨b3, l3, 3⟩, ⟨b4, l4, 4⟩, cs⟩ : ClientTracker).entry y).priority)
        (apisToTry ⟨⟨b1, l1, 1⟩, ⟨b2, l2, 2⟩, ⟨b3, l3, 3⟩, ⟨b4, l4, 4⟩, cs⟩ none)) ∧
    (fetchCryptoData env mockData none none 300000 false 3 (initClientState α now)).1 =
      (a, ApiSource.real Provider.coincap) ∧
    (fetchCryptoData env mockData none none 300000 false 3 (initClientState α now)).2.2 =
      List.replicate 12 Provider.coingecko ++ [Provider.coincap] ∧
    Provider.cryptocompare ∉
      (fetchCryptoData env mockData none none 300000 false 3 (initClientState α now)).2.2 ∧
    Provider.binance ∉
      (fetchCryptoData env mockData none none 300000 false 3 (initClientState α now)).2.2 := by
  have hsorted : ∀ (b1 b2 b3 b4 : Bool) (l1 l2 l3 l4 : Nat) (cs : ApiSource),
      List.Pairwise
        (fun x y =>
          ((⟨⟨b1, l1, 1⟩, ⟨b2, l2, 2⟩, ⟨b3, l3, 3⟩, ⟨b4, l4, 4⟩, cs⟩ : ClientTracker).entry x).priority ≤
          ((⟨⟨b1, l1, 1⟩, ⟨b2, l2, 2⟩, ⟨b3, l3, 3⟩, ⟨b4, l4, 4⟩, cs⟩ : ClientTracker).entry y).priority)
        (apisToTry ⟨⟨b1, l1, 1⟩, ⟨b2, l2, 2⟩, ⟨b3, l3, 3⟩, ⟨b4, l4, 4⟩, cs⟩ none) := by
    intro b1 b2 b3 b4 l1 l2 l3 l4 cs
    cases b1 <;> cases b2 <;> cases b3 <;> cases b4 <;>
      simp [apisToTry, allProviders, sortByPriority, insertByPriority, ClientTracker.entry]
  have hcand : apisToTry initialTracker none =
      [Provider.coingecko, Provider.coincap, Provider.cryptocompare, Provider.binance] := rfl
  have hrl1 : initialRequestTracker.rlOf Provider.coingecko = false := rfl
  have hadd1 : initialRequestTracker.addRequest Provider.coingecko now =
      ({ initialRequestTracker with coingeckoTimes := [now] }, true) :=
    addRequest_coingecko_fresh initialRequestTracker now rfl
  have hout1 : outerRetryLoop env Provider.coingecko now 3 3 0
      ({ initialRequestTracker with coingeckoTimes := [now] }) =
      (Except.error ErrKind.generic, { initialRequestTracker with coingeckoTimes := [now] }, 12) := by
    rw [outerRetryLoop_allHttpError h1]
  have htr1 : ClientTracker.updateStatus initialTracker Provider.coingecko false now =
      ⟨⟨false, now, 1⟩, ⟨true, 0, 2⟩, ⟨true, 0, 3⟩, ⟨true, 0, 4⟩,
        ApiSource.real Provider.coincap⟩ := rfl
  have hrl2 : ({ initialRequestTracker with coingeckoTimes := [now] }).rlOf Provider.coincap =
      false := rfl
  have hadd2 : ({ initialRequestTracker with coingeckoTimes := [now] }).addRequest
      Provider.coincap now =
      ({ initialRequestTracker with coingeckoTimes := [now] }, true) := rfl
  have hout2 : outerRetryLoop env Provider.coincap now 3 3 0
      ({ initialRequestTracker with coingeckoTimes := [now] }) =
      (Except.ok a, { initialRequestTracker with coingeckoTimes := [now] }, 1) :=
    outerRetryLoop_ok h2 2
  have htr2 : ClientTracker.updateStatus
      ⟨⟨false, now, 1⟩, ⟨true, 0, 2⟩, ⟨true, 0, 3⟩, ⟨true, 0, 4⟩, ApiSource.real Provider.coincap⟩
      Provider.coincap true now =
      ⟨⟨false, now, 1⟩, ⟨true, now, 2⟩, ⟨true, 0, 3⟩, ⟨true, 0, 4⟩,
        ApiSource.real Provider.coincap⟩ := rfl
  refine ⟨hsorted, ?_, ?_, ?_, ?_⟩ <;>
    simp only [fetchCryptoData, initClientState, hcand, tryApis, hrl1, hadd1, hout1, htr1,
      hrl2, hadd2, hout2, htr2, Bool.false_eq_true, if_false, List.replicate, List.cons_append,
      List.nil_append, List.singleton_append] <;>
    decide

/-- C2 witness: the two-provider scenario run on a concrete oracle returns
the priority-2 source. -/
theorem c2_priority_order_first_success_witness :
    (fetchCryptoData netEnvCoingeckoDown 0 none none 300000 false 3
      (initClientState Nat 123456)).1 = (42, ApiSource.real Provider.coincap) :=
  (c2_priority_order_first_success netEnvCoingeckoDown 0 42 123456 (fun _ => rfl) rfl).2.1

/-- C4 (amended): per fetch, each provider receives at most
retries * (retries + 1) network attempts, the product of the outer retry
loop of fetchCryptoData and the inner attempt loop of fetchFromApi (twelve
at the default of three, not three); and a provider answering 429 is
retried locally by the outer loop, so with retries = 3 and a Retry-After
hint of 7 seconds the provider is attempted three times, ends flagged
rate-limited with reset time now + 7000 ms, is marked non-operational, and
the dispatcher then takes the next candidate. -/
theorem c4_retry_budget {α : Type} (env : NetEnv α) (mockData a : α) (now : Nat)
    (h1 : ∀ k, env Provider.coingecko k = Outcome.rateLimited (some 7))
    (h2 : env Provider.coincap 0 = Outcome.ok a) :
    (∀ (β : Type) (env2 : NetEnv β) (mockData2 : β) (preferred : Option Provider)
      (ck : Option String) (ct : Nat) (ff : Bool) (R : Nat) (s : ClientState β) (p : Provider),
      ((fetchCryptoData env2 mockData2 preferred ck ct ff R s).2.2).count p ≤ R * (R + 1)) ∧
    (fetchCryptoData env mockData none none 300000 false 3 (initClientState α now)).1 =
      (a, ApiSource.real Provider.coincap) ∧
    (fetchCryptoData env mockData none none 300000 false 3 (initClientState α now)).2.2 =
      List.replicate 3 Provider.coingecko ++ [Provider.coincap] ∧
    (fetchCryptoData env mockData none none 300000 false 3
      (initClientState α now)).2.1.rt.rlOf Provider.coingecko = true ∧
    (fetchCryptoData env mockData none none 300000 false 3
      (initClientState α now)).2.1.rt.rstOf Provider.coingecko = now + 7 * 1000 ∧
    ((fetchCryptoData env mockData none none 300000 false 3
      (initClientState α now)).2.1.tracker.entry Provider.coingecko).operational = false := by
  have hbound : ∀ (β : Type) (env2 : NetEnv β) (mockData2 : β) (preferred : Option Provider)
      (ck : Option String) (ct : Nat) (ff : Bool) (R : Nat) (s : ClientState β) (p : Provider),
      ((fetchCryptoData env2 mockData2 preferred ck ct ff R s).2.2).count p ≤ R * (R + 1) := by
    intro β env2 mockData2 preferred ck ct ff R s p
    rcases fetchCryptoData_shape env2 mockData2 preferred ck ct ff R s with
      ⟨_, _, htr⟩ | ⟨s1, _, _, _, _, _, htr⟩
    · rw [htr]; simp
    · rw [htr]
      exact tryApis_count_le env2 ck ct R p (apisToTry s.tracker preferred) s1
        (apisToTry_nodup s.tracker preferred)
  have hcand : apisToTry initialTracker none =
      [Provider.coingecko, Provider.coincap, Provider.cryptocompare, Provider.binance] := rfl
  have hadd1 : initialRequestTracker.addRequest Provider.coingecko now =
      ({ initialRequestTracker with coingeckoTimes := [now] }, true) :=
    addRequest_coingecko_fresh initialRequestTracker now rfl
  have hout1 : outerRetryLoop env Provider.coingecko now 3 3 0
      ({ initialRequestTracker with coingeckoTimes := [now] }) =
      (Except.error ErrKind.rateLimit,
        ({ initialRequestTracker with
            coingeckoTimes := [now], rlCoingecko := true,
            rstCoingecko := now + 7 * 1000 }), 3) := by
    rw [show (3 : Nat) = 2 + 1 from rfl, outerRetryLoop_allRateLimited h1]
    rfl
  have htr1 : ClientTracker.updateStatus initialTracker Provider.coingecko false now =
      ⟨⟨false, now, 1⟩, ⟨true, 0, 2⟩, ⟨true, 0, 3⟩, ⟨true, 0, 4⟩,
        ApiSource.real Provider.coincap⟩ := rfl
  have hrl2 : ({ initialRequestTracker with
      coingeckoTimes := [now], rlCoingecko := true,
      rstCoingecko := now + 7 * 1000 }).rlOf Provider.coincap = false := rfl
  have hadd2 : ({ initialRequestTracker with
      coingeckoTimes := [now], rlCoingecko := true,
      rstCoingecko := now + 7 * 1000 }).addRequest Provider.coincap now =
      ({ initialRequestTracker with
        coingeckoTimes := [now], rlCoingecko := true,
        rstCoingecko := now + 7 * 1000 }, true) := rfl
  have hout2 : outerRetryLoop env Provider.coincap now 3 3 0
      ({ initialRequestTracker with
        coingeckoTimes := [now], rlCoingecko := true,
        rstCoingecko := now + 7 * 1000 }) =
      (Except.ok a, ({ initialRequestTracker with
        coingeckoTimes := [now], rlCoingecko := true,
        rstCoingecko := now + 7 * 1000 }), 1) :=
    outerRetryLoop_ok h2 2
  have htr2 : ClientTracker.updateStatus
      ⟨⟨false, now, 1⟩, ⟨true, 0, 2⟩, ⟨true, 0, 3⟩, ⟨true, 0, 4⟩, ApiSource.real Provider.coincap⟩
      Provider.coincap true now =
      ⟨⟨false, now, 1⟩, ⟨true, now, 2⟩, ⟨true, 0, 3⟩, ⟨true, 0, 4⟩,
        ApiSource.real Provider.coincap⟩ := rfl
  refine ⟨hbound, ?_, ?_, ?_, ?_, ?_⟩ <;>
    simp only [fetchCryptoData, initClientState, hcand, tryApis, hadd1, hout1, htr1,
      hrl2, hadd2, hout2, htr2, Bool.false_eq_true, if_false, List.replicate, List.cons_append,
      List.nil_append, List.singleton_append] <;>
    rfl

/-- C4 counterexample: on an oracle that always fails with a generic HTTP
error, one dispatch performs twelve network attempts against coingecko at
the default retry setting of three, contradicting the claimed bound of at
most three attempts per provider. -/
theorem c4_attempt_count_exceeds_budget :
    ((fetchCryptoData netEnvAllHttpError 0 none none 300000 false 3
      (initClientState Nat 1000000)).2.2.count Provider.coingecko = 12) ∧ ¬ (12 ≤ 3) := by
  decide

/-- C4 witness: the 429 scenario run on a concrete oracle. -/
theorem c4_retry_budget_witness :
    (fetchCryptoData netEnvCoingeckoRateLimited 0 none none 300000 false 3
      (initClientState Nat 999)).2.2 =
      List.replicate 3 Provider.coingecko ++ [Provider.coincap] :=
  (c4_retry_budget netEnvCoingeckoRateLimited 0 42 999 (fun _ => rfl) rfl).2.2.1

/-- C5: a provider whose isRateLimited flag is set when a fetch runs is
skipped: its tracker record (operational flag and lastChecked) is exactly
the record before the fetch, its flag is still set afterwards, it receives
no network attempt, and in particular an initially operational rate-limited
provider is still operational. -/
theorem c5_rate_limited_skip {α : Type} (env : NetEnv α) (mockData : α)
    (preferred : Option Provider) (ck : Option String) (ct : Nat) (ff : Bool) (R : Nat)
    (p : Provider) (s : ClientState α) (h : s.rt.rlOf p = true) :
    (fetchCryptoData env mockData preferred ck ct ff R s).2.1.tracker.entry p =
      s.tracker.entry p ∧
    (fetchCryptoData env mockData preferred ck ct ff R s).2.1.rt.rlOf p = true ∧
    p ∉ (fetchCryptoData env mockData preferred ck ct ff R s).2.2 ∧
    ((s.tracker.entry p).operational = true →
      ((fetchCryptoData env mockData preferred ck ct ff R s).2.1.tracker.entry p).operational =
        true) := by
  rcases fetchCryptoData_shape env mockData preferred ck ct ff R s with
    ⟨ht, hrt, htr⟩ | ⟨s1, h1t, h1rt, _h1n, ht, hrt, htr⟩
  · refine ⟨by rw [ht], by rw [hrt, h], by rw [htr]; simp, ?_⟩
    intro hop
    rw [ht]
    exact hop
  · have hinv := tryApis_rl_invariant env ck ct R p (apisToTry s.tracker preferred) s1
      (by rw [h1rt]; exact h)
    refine ⟨?_, ?_, ?_, ?_⟩
    · rw [ht, hinv.1, h1t]
    · rw [hrt, hinv.2.1]
    · rw [htr]; exact hinv.2.2
    · intro hop
      rw [ht, hinv.1, h1t]
      exact hop

/-- C5 witness: a fetch over a tracker with coingecko flagged rate-limited
never contacts coingecko. -/
theorem c5_rate_limited_skip_witness :
    Provider.coingecko ∉
      (fetchCryptoData netEnvAllHttpError 0 none none 300000 false 3
        (⟨initialTracker, rtRateLimitedCg, [], 555⟩ : ClientState Nat)).2.2 :=
  (c5_rate_limited_skip netEnvAllHttpError 0 none none 300000 false 3 Provider.coingecko
    ⟨initialTracker, rtRateLimitedCg, [], 555⟩ rfl).2.2.1

/-- C6 (amended): when every provider is non-operational, the
fetchCryptoData path caches the manufactured mock payload under the given
key with expiry min(cacheTime, five minutes) but leaves the status tracker,
including currentSource, untouched; the getCryptoList cascade conversely
assigns currentSource mock but writes nothing to the cache. -/
theorem c6_mock_caching {α : Type} (env : NetEnv α) (mockData : α) (k : String)
    (ct R : Nat) (s : ClientState α)
    (h1 : (s.tracker.entry Provider.coingecko).operational = false)
    (h2 : (s.tracker.entry Provider.coincap).operational = false)
    (h3 : (s.tracker.entry Provider.cryptocompare).operational = false)
    (h4 : (s.tracker.entry Provider.binance).operational = false) :
    fetchCryptoData env mockData none (some k) ct true R s =
      ((mockData, ApiSource.mock),
       ⟨s.tracker, s.rt, cacheData s.cache k mockData ApiSource.mock (min ct 300000) s.now,
         s.now⟩, []) ∧
    min ct 300000 ≤ 300000 ∧
    (∀ (uenv : UtilEnv) (currency : String) (u : UtilState),
      u.status.primaryOperational = false →
      u.status.secondaryOperational = false →
      u.status.tertiaryOperational = false →
      u.status.quaternaryOperational = false →
      getCryptoList uenv currency true u =
        (getMockCryptoList currency,
         ⟨{ u.status with currentSource := UtilSource.mock }, u.cache, u.now⟩)) := by
  have hcand : apisToTry s.tracker none = [] := by
    simp [apisToTry, allProviders, sortByPriority, h1, h2, h3, h4]
  refine ⟨?_, Nat.min_le_right ct 300000, ?_⟩
  · simp only [fetchCryptoData, hcand, tryApis]
  · intro uenv currency u hu1 hu2 hu3 hu4
    simp [getCryptoList, utilCascade, UtilStatus.operationalOf, hu1, hu2, hu3, hu4]

/-- C6 witness: the fetchCryptoData half at a concrete all-down client
state, mock-cache expiry bounded by five minutes. -/
theorem c6_mock_caching_witness : min 600000 300000 ≤ 300000 :=
  (c6_mock_caching netEnvAllHttpError 0 "crypto-list-usd" 600000 3 clientStateAllDown
    rfl rfl rfl rfl).2.1

end CryptoTracker
